import Mathlib

/-!
Verification development for the physics/combat engine in
src/autochess_combat/physics_lab.py, shallowly embedded over the exact
rationals.  Square roots (math.sqrt, math.hypot) and the float power
operator (**) are passed in as explicit function parameters sq / rp:
the theorems either hold for every such function, or are evaluated at
concrete inputs where the square root is exact.
-/

/-- Python str.lower (ASCII case fold, sufficient for the team names used). -/
def pyLower (s : String) : String := s.map Char.toLower

/-- Python team.strip().lower(), the normalization used for team names. -/
def normTeam (s : String) : String := pyLower s.trim

/-- Mirror of dataclass PhysicsBody (physics_lab.py lines 8-27). -/
structure PhysicsBody where
  body_id : ℕ
  team : String
  x : ℚ
  y : ℚ
  vx : ℚ
  vy : ℚ
  radius : ℚ
  mass : ℚ
  color : String
  power : ℚ
  role : String
  forward_dir : ℚ
  max_hp : ℚ
  hp : ℚ
  stagger_timer : ℚ
  last_damage : ℚ
  ability_cooldown : ℚ
  deriving DecidableEq

/-- PhysicsBody._normalize_role (lines 51-57). -/
def normalizeRole (raw : String) : String :=
  let role := pyLower raw.trim
  if role = "tank" ∨ role = "dealer" ∨ role = "healer" ∨ role = "ranged_dealer" ∨
      role = "ranged_healer" then role else "dealer"

/-- PhysicsBody.__post_init__ (lines 28-45): validation, hp clamp, role
normalization.  Fallible construction is modelled with Except. -/
def mkPhysicsBody (body_id : ℕ) (team : String) (x y vx vy radius mass : ℚ)
    (color : String) (power : ℚ) (role : String) (forward_dir max_hp hp
    stagger_timer last_damage ability_cooldown : ℚ) : Except String PhysicsBody :=
  if radius ≤ 0 then .error "radius must be > 0"
  else if mass ≤ 0 then .error "mass must be > 0"
  else if power ≤ 0 then .error "power must be > 0"
  else if max_hp ≤ 0 then .error "max_hp must be > 0"
  else if hp < 0 then .error "hp must be >= 0"
  else if stagger_timer < 0 then .error "stagger_timer must be >= 0"
  else if ability_cooldown < 0 then .error "ability_cooldown must be >= 0"
  else .ok
    { body_id := body_id, team := team, x := x, y := y, vx := vx, vy := vy
      radius := radius, mass := mass, color := color, power := power
      role := normalizeRole role, forward_dir := forward_dir, max_hp := max_hp
      hp := if max_hp < hp then max_hp else hp
      stagger_timer := stagger_timer, last_damage := last_damage
      ability_cooldown := ability_cooldown }

/-- Mirror of dataclass PhysicsTuning (lines 60-95). -/
structure PhysicsTuning where
  gravity : ℚ := 900
  approach_force : ℚ := 1150
  restitution : ℚ := 68/100
  wall_restitution : ℚ := 55/100
  linear_damping : ℚ := 16/100
  friction : ℚ := 20/100
  wall_friction : ℚ := 8/100
  ground_friction : ℚ := 30/100
  ground_snap_speed : ℚ := 42
  collision_boost : ℚ := 1
  solver_passes : ℕ := 3
  position_correction : ℚ := 80/100
  mass_power_impact_scale : ℚ := 120
  power_ratio_exponent : ℚ := 50/100
  impact_speed_cap : ℚ := 1400
  min_recoil_speed : ℚ := 45
  recoil_scale : ℚ := 62/100
  min_launch_speed : ℚ := 90
  launch_scale : ℚ := 45/100
  launch_height_scale : ℚ := 1
  max_launch_speed : ℚ := 820
  damage_base : ℚ := 15/10
  damage_scale : ℚ := 28/1000
  stagger_base : ℚ := 6/100
  stagger_scale : ℚ := 12/10000
  max_stagger : ℚ := 120/100
  stagger_drive_multiplier : ℚ := 0
  ranged_attack_cooldown : ℚ := 1
  ranged_attack_range : ℚ := 520
  ranged_knockback_force : ℚ := 240
  ranged_damage : ℚ := 55/10
  healer_cooldown : ℚ := 120/100
  healer_range : ℚ := 360
  healer_amount : ℚ := 10
  deriving DecidableEq

/-- PhysicsTuning.validate (lines 97-161), check for check in source order. -/
def PhysicsTuning.validate (t : PhysicsTuning) : Except String Unit :=
  if t.restitution < 0 then .error "restitution must be >= 0"
  else if t.wall_restitution < 0 then .error "wall_restitution must be >= 0"
  else if t.linear_damping < 0 then .error "linear_damping must be >= 0"
  else if t.friction < 0 then .error "friction must be >= 0"
  else if t.wall_friction < 0 then .error "wall_friction must be >= 0"
  else if t.ground_friction < 0 then .error "ground_friction must be >= 0"
  else if t.ground_snap_speed < 0 then .error "ground_snap_speed must be >= 0"
  else if t.collision_boost ≤ 0 then .error "collision_boost must be > 0"
  else if t.solver_passes = 0 then .error "solver_passes must be > 0"
  else if ¬ (0 ≤ t.position_correction ∧ t.position_correction ≤ 1) then
    .error "position_correction must be in [0, 1]"
  else if t.mass_power_impact_scale ≤ 0 then .error "mass_power_impact_scale must be > 0"
  else if t.power_ratio_exponent < 0 then .error "power_ratio_exponent must be >= 0"
  else if t.impact_speed_cap ≤ 0 then .error "impact_speed_cap must be > 0"
  else if t.min_recoil_speed < 0 then .error "min_recoil_speed must be >= 0"
  else if t.recoil_scale < 0 then .error "recoil_scale must be >= 0"
  else if t.min_launch_speed < 0 then .error "min_launch_speed must be >= 0"
  else if t.launch_scale < 0 then .error "launch_scale must be >= 0"
  else if t.launch_height_scale ≤ 0 then .error "launch_height_scale must be > 0"
  else if t.max_launch_speed ≤ 0 then .error "max_launch_speed must be > 0"
  else if t.damage_base < 0 then .error "damage_base must be >= 0"
  else if t.damage_scale < 0 then .error "damage_scale must be >= 0"
  else if t.stagger_base < 0 then .error "stagger_base must be >= 0"
  else if t.stagger_scale < 0 then .error "stagger_scale must be >= 0"
  else if t.max_stagger < 0 then .error "max_stagger must be >= 0"
  else if t.stagger_drive_multiplier < 0 then .error "stagger_drive_multiplier must be >= 0"
  else if t.ranged_attack_cooldown ≤ 0 then .error "ranged_attack_cooldown must be > 0"
  else if t.ranged_attack_range ≤ 0 then .error "ranged_attack_range must be > 0"
  else if t.ranged_knockback_force < 0 then .error "ranged_knockback_force must be >= 0"
  else if t.ranged_damage < 0 then .error "ranged_damage must be >= 0"
  else if t.healer_cooldown ≤ 0 then .error "healer_cooldown must be > 0"
  else if t.healer_range ≤ 0 then .error "healer_range must be > 0"
  else if t.healer_amount < 0 then .error "healer_amount must be >= 0"
  else .ok ()

/-- Mirror of dataclass PhysicsWorld state (lines 164-174).  The Python sets
are modelled as lists; only membership is ever consumed. -/
structure PhysicsWorld where
  width : ℚ
  height : ℚ
  bodies : List PhysicsBody
  tuning : PhysicsTuning
  time_elapsed : ℚ
  total_collisions : ℕ
  last_step_collisions : ℕ
  active_contacts : List (ℕ × ℕ)
  invincible_teams : List String
  deriving DecidableEq

/-- PhysicsWorld.set_invincible_teams (lines 186-192). -/
def setInvincibleTeams (w : PhysicsWorld) (teams : List String) : PhysicsWorld :=
  { w with invincible_teams := (teams.map normTeam).filter (fun s => s ≠ "") }

/-- PhysicsWorld.is_team_invincible (lines 194-195), against an explicit
invincible list. -/
def isTeamInvincibleL (inv : List String) (team : String) : Bool :=
  decide (normTeam team ∈ inv)

/-- PhysicsWorld.__post_init__ (lines 176-180). -/
def mkPhysicsWorld (width height : ℚ) (bodies : List PhysicsBody)
    (tuning : PhysicsTuning) (invincible_teams : List String) :
    Except String PhysicsWorld :=
  if width ≤ 0 ∨ height ≤ 0 then .error "world size must be > 0"
  else match tuning.validate with
  | .error e => .error e
  | .ok _ => .ok (setInvincibleTeams
      { width := width, height := height, bodies := bodies, tuning := tuning
        time_elapsed := 0, total_collisions := 0, last_step_collisions := 0
        active_contacts := [], invincible_teams := invincible_teams } invincible_teams)

/-- PhysicsWorld._is_grounded (lines 271-273). -/
def isGrounded (t : PhysicsTuning) (hgt : ℚ) (b : PhysicsBody) : Bool :=
  let ground_y := hgt - b.radius
  decide (ground_y - 1/1000000 ≤ b.y ∧ |b.vy| ≤ t.ground_snap_speed)

/-- PhysicsWorld._resolve_wall_collision (lines 275-302). -/
def resolveWallCollision (t : PhysicsTuning) (wid hgt : ℚ) (b : PhysicsBody) :
    PhysicsBody :=
  let r := b.radius
  let wr := t.wall_restitution
  let wf := max 0 (1 - t.wall_friction)
  let b1 : PhysicsBody :=
    if b.x - r < 0 then
      let b2 := { b with x := r }
      if b2.vx < 0 then { b2 with vx := -b2.vx * wr, vy := b2.vy * wf } else b2
    else if wid < b.x + r then
      let b2 := { b with x := wid - r }
      if 0 < b2.vx then { b2 with vx := -b2.vx * wr, vy := b2.vy * wf } else b2
    else b
  if b1.y - r < 0 then
    let b2 : PhysicsBody := { b1 with y := r }
    if b2.vy < 0 then { b2 with vy := -b2.vy * wr, vx := b2.vx * wf } else b2
  else if hgt < b1.y + r then
    let b2 : PhysicsBody := { b1 with y := hgt - r }
    let b3 : PhysicsBody := if t.ground_snap_speed < b2.vy then
      { b2 with vy := -b2.vy * wr } else { b2 with vy := 0 }
    { b3 with vx := b3.vx * max 0 (1 - t.ground_friction) }
  else b1

/-- The per-body part of PhysicsWorld.step (lines 219-256): tick reset,
dead-body freeze, timers, drive, gravity, damping, integration, walls. -/
def integrateBody (t : PhysicsTuning) (wid hgt dt damping : ℚ) (b : PhysicsBody) :
    PhysicsBody :=
  let b := { b with last_damage := 0 }
  if ¬ (0 < b.hp) then
    { b with vx := 0, vy := 0, stagger_timer := 0, ability_cooldown := 0 }
  else
    let b := if 0 < b.stagger_timer then
      { b with stagger_timer := max 0 (b.stagger_timer - dt) } else b
    let b := if 0 < b.ability_cooldown then
      { b with ability_cooldown := max 0 (b.ability_cooldown - dt) } else b
    let on_ground := isGrounded t hgt b
    let drive_force := t.approach_force * b.power
    let drive_force := if 0 < b.stagger_timer then
      drive_force * t.stagger_drive_multiplier else drive_force
    let ax := (b.forward_dir * drive_force) / b.mass
    let ayb : ℚ × PhysicsBody :=
      if on_ground && decide (0 ≤ b.vy) then (0, { b with vy := 0 })
      else (t.gravity, b)
    let ay := ayb.1
    let b := ayb.2
    let b := { b with vx := b.vx + ax * dt }
    let b := { b with vy := b.vy + ay * dt }
    let b := { b with vx := b.vx * damping, vy := b.vy * damping }
    let b := if on_ground then
      { b with vx := b.vx * max 0 (1 - t.ground_friction * dt) } else b
    let b := { b with x := b.x + b.vx * dt, y := b.y + b.vy * dt }
    resolveWallCollision t wid hgt b

/-- PhysicsWorld._incoming_strength (lines 404-409); rp embeds the float
power operator. -/
def incomingStrength (rp : ℚ → ℚ → ℚ) (t : PhysicsTuning)
    (attacker defender : PhysicsBody) : ℚ :=
  let power_ratio := max (1/1000000) attacker.power / max (1/1000000) defender.power
  let mass_ratio := attacker.mass / max (1/1000000) defender.mass
  let scaled := t.mass_power_impact_scale * mass_ratio
  let scaled := scaled * rp power_ratio t.power_ratio_exponent
  min t.impact_speed_cap scaled

/-- Contact damage damage_base + incoming × damage_scale (lines 443-444). -/
def impactDamage (rp : ℚ → ℚ → ℚ) (t : PhysicsTuning)
    (attacker defender : PhysicsBody) : ℚ :=
  t.damage_base + incomingStrength rp t attacker defender * t.damage_scale

/-- PhysicsWorld._apply_impact_effects (lines 411-465). -/
def applyImpactEffects (rp : ℚ → ℚ → ℚ) (t : PhysicsTuning) (inv : List String)
    (a b : PhysicsBody) (nx : ℚ) : PhysicsBody × PhysicsBody :=
  let incoming_a := incomingStrength rp t b a
  let incoming_b := incomingStrength rp t a b
  let recoil_a := t.min_recoil_speed + incoming_a * t.recoil_scale
  let recoil_b := t.min_recoil_speed + incoming_b * t.recoil_scale
  let launch_a := min t.max_launch_speed
    ((t.min_launch_speed + incoming_a * t.launch_scale) * t.launch_height_scale)
  let launch_b := min t.max_launch_speed
    ((t.min_launch_speed + incoming_b * t.launch_scale) * t.launch_height_scale)
  let a := { a with vx := a.vx - nx * (recoil_a / a.mass) }
  let b := { b with vx := b.vx + nx * (recoil_b / b.mass) }
  let a := { a with vy := a.vy - launch_a / a.mass }
  let b := { b with vy := b.vy - launch_b / b.mass }
  let damage_a := impactDamage rp t b a
  let damage_b := impactDamage rp t a b
  let da : ℚ × PhysicsBody :=
    if isTeamInvincibleL inv a.team then (0, a)
    else (damage_a, { a with hp := max 0 (a.hp - damage_a) })
  let db : ℚ × PhysicsBody :=
    if isTeamInvincibleL inv b.team then (0, b)
    else (damage_b, { b with hp := max 0 (b.hp - damage_b) })
  let a := { da.2 with last_damage := da.1 }
  let b := { db.2 with last_damage := db.1 }
  let stagger_a := min t.max_stagger (t.stagger_base + incoming_a * t.stagger_scale)
  let stagger_b := min t.max_stagger (t.stagger_base + incoming_b * t.stagger_scale)
  let a := { a with stagger_timer := max a.stagger_timer stagger_a }
  let b := { b with stagger_timer := max b.stagger_timer stagger_b }
  (a, b)

/-- State threaded through _resolve_body_collisions (lines 304-402).
fireLog instruments each invocation of _apply_impact_effects (and nothing
else); the Python fields are bodies, contacts, impacts and collisions. -/
structure SolverState where
  bodies : List PhysicsBody
  contacts : List (ℕ × ℕ)
  impacts : List (ℕ × ℕ)
  collisions : ℕ
  fireLog : List (ℕ × ℕ)
  deriving DecidableEq

/-- Python set.add on the pair sets. -/
def addPair (p : ℕ × ℕ) (l : List (ℕ × ℕ)) : List (ℕ × ℕ) :=
  if p ∈ l then l else p :: l

/-- The order-independent pair identifier (line 329). -/
def pairKey (a b : PhysicsBody) : ℕ × ℕ :=
  (min a.body_id b.body_id, max a.body_id b.body_id)

/-- Contact normal and distance (lines 332-339): (nx, ny, distance). -/
def contactNormal (sq : ℚ → ℚ) (a b : PhysicsBody) : ℚ × ℚ × ℚ :=
  let dx := b.x - a.x
  let dy := b.y - a.y
  let radii := a.radius + b.radius
  let distance_sq := dx * dx + dy * dy
  if distance_sq ≤ 1/1000000000000 then
    (if (a.body_id + b.body_id) % 2 = 0 then (1, 0, radii) else (-1, 0, radii))
  else
    let distance := sq distance_sq
    (dx / distance, dy / distance, distance)

/-- Relative speed along the contact normal (lines 352-354); the position
correction does not change velocities, so this is a function of the two
incoming bodies alone. -/
def relNormalSpeed (sq : ℚ → ℚ) (a b : PhysicsBody) : ℚ :=
  let nd := contactNormal sq a b
  (b.vx - a.vx) * nd.1 + (b.vy - a.vy) * nd.2.1

/-- Result of handling one overlapping pair. -/
structure PairOut where
  a2 : PhysicsBody
  b2 : PhysicsBody
  fired : Bool
  deriving DecidableEq

/-- Lines 329-398 of _resolve_body_collisions, for a pair already known to
overlap: positional correction, velocity impulse with friction, and the
first-contact gate on _apply_impact_effects. -/
def collidePair (sq : ℚ → ℚ) (rp : ℚ → ℚ → ℚ) (t : PhysicsTuning)
    (inv : List String) (prev impacts : List (ℕ × ℕ)) (a b : PhysicsBody) :
    PairOut :=
  let radii := a.radius + b.radius
  let pair := pairKey a b
  let nd := contactNormal sq a b
  let nx := nd.1
  let ny := nd.2.1
  let distance := nd.2.2
  let inv_mass_a := 1 / a.mass
  let inv_mass_b := 1 / b.mass
  let inv_mass_sum := inv_mass_a + inv_mass_b
  let penetration := radii - distance
  let correction := penetration / inv_mass_sum * t.position_correction
  let rel_vx := b.vx - a.vx
  let rel_vy := b.vy - a.vy
  let rel_normal_speed := relNormalSpeed sq a b
  let a := { a with x := a.x - nx * correction * inv_mass_a,
                    y := a.y - ny * correction * inv_mass_a }
  let b := { b with x := b.x + nx * correction * inv_mass_b,
                    y := b.y + ny * correction * inv_mass_b }
  let ab : PhysicsBody × PhysicsBody :=
    if rel_normal_speed < 0 then
      let power_a := max (1/1000000) a.power
      let power_b := max (1/1000000) b.power
      let effective_inv_mass_a := inv_mass_a / power_a
      let effective_inv_mass_b := inv_mass_b / power_b
      let effective_inv_mass_sum := effective_inv_mass_a + effective_inv_mass_b
      let impulse :=
        -(1 + t.restitution) * rel_normal_speed / effective_inv_mass_sum
          * t.collision_boost
      let impulse_x := impulse * nx
      let impulse_y := impulse * ny
      let a := { a with vx := a.vx - impulse_x * effective_inv_mass_a,
                        vy := a.vy - impulse_y * effective_inv_mass_a }
      let b := { b with vx := b.vx + impulse_x * effective_inv_mass_b,
                        vy := b.vy + impulse_y * effective_inv_mass_b }
      let tangent_x := rel_vx - rel_normal_speed * nx
      let tangent_y := rel_vy - rel_normal_speed * ny
      let tangent_mag := sq (tangent_x * tangent_x + tangent_y * tangent_y)
      if 1/1000000000 < tangent_mag then
        let tangent_x := tangent_x / tangent_mag
        let tangent_y := tangent_y / tangent_mag
        let friction_impulse :=
          -(rel_vx * tangent_x + rel_vy * tangent_y) / effective_inv_mass_sum
        let friction_limit := |impulse| * t.friction
        let friction_impulse :=
          max (-friction_limit) (min friction_impulse friction_limit)
        let fx := friction_impulse * tangent_x
        let fy := friction_impulse * tangent_y
        let a := { a with vx := a.vx - fx * effective_inv_mass_a,
                          vy := a.vy - fy * effective_inv_mass_a }
        let b := { b with vx := b.vx + fx * effective_inv_mass_b,
                          vy := b.vy + fy * effective_inv_mass_b }
        (a, b)
      else (a, b)
    else (a, b)
  let fire : Prop := pair ∉ prev ∧ pair ∉ impacts ∧ rel_normal_speed < 0
  let ab2 := if fire then applyImpactEffects rp t inv ab.1 ab.2 nx else ab
  { a2 := ab2.1, b2 := ab2.2, fired := decide fire }

/-- One iteration of the inner pair loop of _resolve_body_collisions
(lines 316-400).  The aliveness of body i is checked by the caller
(processRow), exactly as in the source. -/
def processPair (sq : ℚ → ℚ) (rp : ℚ → ℚ → ℚ) (t : PhysicsTuning)
    (inv : List String) (prev : List (ℕ × ℕ)) (s : SolverState) (i j : ℕ) :
    SolverState :=
  match s.bodies[i]?, s.bodies[j]? with
  | some a, some b =>
    if ¬ (0 < b.hp) then s
    else if a.team = b.team then s
    else if (a.radius + b.radius) * (a.radius + b.radius) ≤
        (b.x - a.x) * (b.x - a.x) + (b.y - a.y) * (b.y - a.y) then s
    else
      let r := collidePair sq rp t inv prev s.impacts a b
      { bodies := (s.bodies.set i r.a2).set j r.b2
        contacts := addPair (pairKey a b) s.contacts
        impacts := if r.fired then addPair (pairKey a b) s.impacts else s.impacts
        collisions := s.collisions + 1
        fireLog := if r.fired then pairKey a b :: s.fireLog else s.fireLog }
  | _, _ => s

/-- The outer loop body of _resolve_body_collisions (lines 312-315): the
aliveness of body i is checked once, before its inner loop runs. -/
def processRow (sq : ℚ → ℚ) (rp : ℚ → ℚ → ℚ) (t : PhysicsTuning)
    (inv : List String) (prev : List (ℕ × ℕ)) (n : ℕ) (s : SolverState) (i : ℕ) :
    SolverState :=
  match s.bodies[i]? with
  | none => s
  | some a =>
    if ¬ (0 < a.hp) then s
    else ((List.range n).drop (i + 1)).foldl
      (fun s2 j => processPair sq rp t inv prev s2 i j) s

/-- One full call of _resolve_body_collisions. -/
def solverPass (sq : ℚ → ℚ) (rp : ℚ → ℚ → ℚ) (t : PhysicsTuning)
    (inv : List String) (prev : List (ℕ × ℕ)) (s : SolverState) : SolverState :=
  let n := s.bodies.length
  (List.range n).foldl (processRow sq rp t inv prev n) s

/-- The solver_passes loop of step (lines 261-262). -/
def runSolver (sq : ℚ → ℚ) (rp : ℚ → ℚ → ℚ) (t : PhysicsTuning)
    (inv : List String) (prev : List (ℕ × ℕ)) : ℕ → SolverState → SolverState
  | 0, s => s
  | k + 1, s => runSolver sq rp t inv prev k (solverPass sq rp t inv prev s)

/-- PhysicsWorld._closest_enemy scan (lines 467-479). -/
def closestEnemyGo (actor : PhysicsBody) :
    List PhysicsBody → ℕ → Option ℕ × ℚ → Option ℕ × ℚ
  | [], _, st => st
  | other :: rest, j, st =>
    let dx := other.x - actor.x
    let dy := other.y - actor.y
    let dist_sq := dx * dx + dy * dy
    let st2 :=
      if ¬ (0 < other.hp) ∨ other.team = actor.team then st
      else if dist_sq ≤ st.2 then (some j, dist_sq) else st
    closestEnemyGo actor rest (j + 1) st2

/-- PhysicsWorld._closest_enemy, returning the index of the chosen body. -/
def closestEnemyIdx (bodies : List PhysicsBody) (i : ℕ) (max_range : ℚ) :
    Option ℕ :=
  match bodies[i]? with
  | none => none
  | some actor => (closestEnemyGo actor bodies 0 (none, max_range * max_range)).1

/-- PhysicsWorld._weakest_ally scan (lines 481-498). -/
def weakestAllyGo (actor : PhysicsBody) (max_range_sq : ℚ) :
    List PhysicsBody → ℕ → Option ℕ × ℚ → Option ℕ × ℚ
  | [], _, st => st
  | other :: rest, j, st =>
    let dx := other.x - actor.x
    let dy := other.y - actor.y
    let st2 :=
      if ¬ (0 < other.hp) ∨ other.team ≠ actor.team then st
      else if max_range_sq < dx * dx + dy * dy then st
      else if other.max_hp ≤ 0 then st
      else
        let hp_ratio := other.hp / other.max_hp
        if hp_ratio < st.2 ∧ other.hp < other.max_hp then (some j, hp_ratio) else st
    weakestAllyGo actor max_range_sq rest (j + 1) st2

/-- PhysicsWorld._weakest_ally, returning the index of the chosen body. -/
def weakestAllyIdx (bodies : List PhysicsBody) (i : ℕ) (max_range : ℚ) :
    Option ℕ :=
  match bodies[i]? with
  | none => none
  | some actor =>
    (weakestAllyGo actor (max_range * max_range) bodies 0 (none, 11/10)).1

/-- PhysicsWorld._apply_ranged_knockback (lines 500-530), by body index. -/
def applyRangedKnockbackAt (sq : ℚ → ℚ) (t : PhysicsTuning) (inv : List String)
    (bodies : List PhysicsBody) (actorIdx targetIdx : ℕ) (force damage : ℚ) :
    List PhysicsBody :=
  match bodies[actorIdx]?, bodies[targetIdx]? with
  | some actor, some target =>
    if ¬ (0 < target.hp) then bodies
    else
      let dx := target.x - actor.x
      let dy := target.y - actor.y
      let distance := sq (dx * dx + dy * dy)
      let nxy : ℚ × ℚ :=
        if distance ≤ 1/1000000000 then
          (if 1/1000000 < |actor.forward_dir| then actor.forward_dir else 1, 0)
        else (dx / distance, dy / distance)
      let nx := nxy.1
      let ny := nxy.2
      let target := { target with
        vx := target.vx + nx * (force / max (1/1000000) target.mass) }
      let target := { target with
        vy := target.vy + (ny * (12/100) - 18/100) * (force / max (1/1000000) target.mass) }
      let target := { target with
        stagger_timer := max target.stagger_timer (min t.max_stagger (t.stagger_base + 12/100)) }
      let target :=
        if 0 < damage ∧ ¬ isTeamInvincibleL inv target.team then
          let scaled_damage := damage * max (6/10) actor.power
          { target with hp := max 0 (target.hp - scaled_damage)
                        last_damage := max target.last_damage scaled_damage }
        else target
      bodies.set targetIdx target
  | _, _ => bodies

/-- Heal site of _apply_role_actions (lines 555-556 and 562-563). -/
def healAt (bodies : List PhysicsBody) (idx : ℕ) (amount : ℚ) :
    List PhysicsBody :=
  match bodies[idx]? with
  | none => bodies
  | some tgt => bodies.set idx { tgt with hp := min tgt.max_hp (tgt.hp + amount) }

/-- Cooldown reset sites of _apply_role_actions. -/
def setCooldown (bodies : List PhysicsBody) (idx : ℕ) (value : ℚ) :
    List PhysicsBody :=
  match bodies[idx]? with
  | none => bodies
  | some b2 => bodies.set idx { b2 with ability_cooldown := value }

/-- One iteration of the actor loop of _apply_role_actions (lines 532-575). -/
def roleActionAt (sq : ℚ → ℚ) (t : PhysicsTuning) (inv : List String)
    (bodies : List PhysicsBody) (idx : ℕ) : List PhysicsBody :=
  match bodies[idx]? with
  | none => bodies
  | some actor =>
    if ¬ (0 < actor.hp) then bodies
    else if 0 < actor.ability_cooldown then bodies
    else if actor.role = "ranged_dealer" then
      match closestEnemyIdx bodies idx t.ranged_attack_range with
      | none => bodies
      | some targetIdx =>
        let bodies2 := applyRangedKnockbackAt sq t inv bodies idx targetIdx
          t.ranged_knockback_force t.ranged_damage
        setCooldown bodies2 idx t.ranged_attack_cooldown
    else if actor.role = "healer" then
      match weakestAllyIdx bodies idx (t.healer_range * (7/10)) with
      | none => bodies
      | some targetIdx =>
        let bodies2 := healAt bodies targetIdx (t.healer_amount * (8/10))
        setCooldown bodies2 idx t.healer_cooldown
    else if actor.role = "ranged_healer" then
      let hres : List PhysicsBody × Bool :=
        match weakestAllyIdx bodies idx t.healer_range with
        | none => (bodies, false)
        | some hIdx => (healAt bodies hIdx (t.healer_amount * (11/10)), true)
      let pres : List PhysicsBody × Bool :=
        match closestEnemyIdx hres.1 idx (t.ranged_attack_range * (9/10)) with
        | none => (hres.1, false)
        | some pIdx => (applyRangedKnockbackAt sq t inv hres.1 idx pIdx
            (t.ranged_knockback_force * (58/100)) 0, true)
      if hres.2 ∨ pres.2 then setCooldown pres.1 idx t.healer_cooldown else pres.1
    else bodies

/-- PhysicsWorld._apply_role_actions (lines 532-575). -/
def applyRoleActions (sq : ℚ → ℚ) (t : PhysicsTuning) (inv : List String)
    (bodies : List PhysicsBody) : List PhysicsBody :=
  (List.range bodies.length).foldl (roleActionAt sq t inv) bodies

/-- Result of one successful step, with the instrumented list of impact
firings exposed. -/
structure StepOut where
  world : PhysicsWorld
  fires : List (ℕ × ℕ)

/-- The body of PhysicsWorld.step after the dt check (lines 217-269). -/
def stepGo (sq : ℚ → ℚ) (rp : ℚ → ℚ → ℚ) (w : PhysicsWorld) (dt : ℚ) : StepOut :=
  let damping := max 0 (1 - w.tuning.linear_damping * dt)
  let bodies := w.bodies.map (integrateBody w.tuning w.width w.height dt damping)
  let s0 : SolverState :=
    { bodies := bodies, contacts := [], impacts := [], collisions := 0, fireLog := [] }
  let s := runSolver sq rp w.tuning w.invincible_teams w.active_contacts
    w.tuning.solver_passes s0
  let bodies2 := applyRoleActions sq w.tuning w.invincible_teams s.bodies
  { world :=
      { w with
        bodies := bodies2
        active_contacts := s.contacts
        last_step_collisions := s.collisions
        total_collisions := w.total_collisions + s.collisions
        time_elapsed := w.time_elapsed + dt }
    fires := s.fireLog }

/-- PhysicsWorld.step (lines 213-269). -/
def stepE (sq : ℚ → ℚ) (rp : ℚ → ℚ → ℚ) (w : PhysicsWorld) (dt : ℚ) :
    Except String PhysicsWorld :=
  if dt ≤ 0 then .error "dt must be > 0" else .ok (stepGo sq rp w dt).world

/-- The impact firings of one step (empty when step rejects dt). -/
def stepFires (sq : ℚ → ℚ) (rp : ℚ → ℚ → ℚ) (w : PhysicsWorld) (dt : ℚ) :
    List (ℕ × ℕ) :=
  if dt ≤ 0 then [] else (stepGo sq rp w dt).fires

/-- PhysicsWorld.set_tuning (lines 182-184). -/
def setTuningE (w : PhysicsWorld) (t : PhysicsTuning) : Except String PhysicsWorld :=
  match t.validate with
  | .error e => .error e
  | .ok _ => .ok { w with tuning := t }

/-- PhysicsWorld.add_random_impulse body loop (lines 197-205): the seeded
rng is modelled as a stream of kick pairs, advanced only on living bodies. -/
def addImpulseGo (kicks : ℕ → ℚ × ℚ) : List PhysicsBody → ℕ → List PhysicsBody
  | [], _ => []
  | b :: rest, k =>
    if 0 < b.hp then
      { b with vx := b.vx + (kicks k).1 / b.mass,
               vy := b.vy + (kicks k).2 / b.mass } :: addImpulseGo kicks rest (k + 1)
    else b :: addImpulseGo kicks rest k

/-- PhysicsWorld.add_random_impulse (lines 197-205). -/
def addRandomImpulse (w : PhysicsWorld) (magnitude : ℚ) (kicks : ℕ → ℚ × ℚ) :
    Except String PhysicsWorld :=
  if magnitude ≤ 0 then .error "magnitude must be > 0"
  else .ok { w with bodies := addImpulseGo kicks w.bodies 0 }

/-- The public mutating operations quantified over by the invariant claim. -/
inductive WorldOp where
  | step (dt : ℚ)
  | addImpulse (magnitude : ℚ) (kicks : ℕ → ℚ × ℚ)
  | setTuning (t : PhysicsTuning)
  | setInvincible (teams : List String)

/-- Run one operation; a raised ValueError leaves the world unchanged. -/
def applyOp (sq : ℚ → ℚ) (rp : ℚ → ℚ → ℚ) (w : PhysicsWorld) : WorldOp → PhysicsWorld
  | .step dt => match stepE sq rp w dt with
    | .ok w2 => w2
    | .error _ => w
  | .addImpulse m kicks => match addRandomImpulse w m kicks with
    | .ok w2 => w2
    | .error _ => w
  | .setTuning t => match setTuningE w t with
    | .ok w2 => w2
    | .error _ => w
  | .setInvincible teams => setInvincibleTeams w teams

/-- A sequence of public operations. -/
def runOps (sq : ℚ → ℚ) (rp : ℚ → ℚ → ℚ) (w : PhysicsWorld) :
    List WorldOp → PhysicsWorld
  | [] => w
  | op :: rest => runOps sq rp (applyOp sq rp w op) rest

/-- n repeated steps of duration dt (failed steps leave the world as is). -/
def stepIter (sq : ℚ → ℚ) (rp : ℚ → ℚ → ℚ) (dt : ℚ) :
    ℕ → PhysicsWorld → PhysicsWorld
  | 0, w => w
  | n + 1, w => stepIter sq rp dt n (applyOp sq rp w (.step dt))

/-- Fuel-driven bisection for the natural square root (structural recursion,
so concrete instances reduce): largest k in [lo, hi] with k * k ≤ n, given
that lo * lo ≤ n. -/
def isqrtGo (n : ℕ) : ℕ → ℕ → ℕ → ℕ
  | 0, lo, _ => lo
  | fuel + 1, lo, hi =>
    if hi ≤ lo then lo
    else
      let mid := (lo + hi + 1) / 2
      if mid * mid ≤ n then isqrtGo n fuel mid hi
      else isqrtGo n fuel lo (mid - 1)

/-- Natural square root (floor), by 128 bisection steps. -/
def isqrt (n : ℕ) : ℕ := isqrtGo n 128 0 n

/-- Exact square root on perfect-square rationals (used to instantiate sq
at concrete inputs; dy = 0 collisions make distance_sq a perfect square). -/
def ratSqrt (q : ℚ) : ℚ := (isqrt q.num.toNat : ℚ) / (isqrt q.den : ℚ)

/-! ## Concrete fixtures, used to instantiate the theorems on explicit
inputs -/

/-- A concrete stand-in for the float ** operator: linear in the base, so
strictly monotone and nonnegative on positive bases. -/
def rpLin (x _e : ℚ) : ℚ := x

/-- A body literal with the free fields of the test scenarios. -/
def mkB (id : ℕ) (team : String) (x y vx vy radius mass power hp : ℚ) :
    PhysicsBody :=
  { body_id := id, team := team, x := x, y := y, vx := vx, vy := vy
    radius := radius, mass := mass, color := "c", power := power
    role := "dealer", forward_dir := 0, max_hp := 100, hp := hp
    stagger_timer := 0, last_damage := 0, ability_cooldown := 0 }

/-- A valid tuning with one solver pass, no gravity or drive, zero
damage_scale and recoil_scale, flat damage 50. -/
def tun0 : PhysicsTuning :=
  { gravity := 0, approach_force := 0, restitution := 0, wall_restitution := 1
    linear_damping := 0, friction := 0, wall_friction := 0, ground_friction := 0
    ground_snap_speed := 42, collision_boost := 1, solver_passes := 1
    position_correction := 1/2, mass_power_impact_scale := 100
    power_ratio_exponent := 1, impact_speed_cap := 1400, min_recoil_speed := 0
    recoil_scale := 0, min_launch_speed := 0, launch_scale := 0
    launch_height_scale := 1, max_launch_speed := 820, damage_base := 50
    damage_scale := 0, stagger_base := 1/10, stagger_scale := 0
    max_stagger := 12/10, stagger_drive_multiplier := 0 }

/-- Two overlapping opposite-team bodies that are moving apart. -/
def W3 : PhysicsWorld :=
  { width := 1000, height := 1000
    bodies := [mkB 0 "l" 50 50 (-1) 0 10 1 1 100, mkB 1 "r" 56 50 1 0 10 1 1 100]
    tuning := tun0, time_elapsed := 0, total_collisions := 0
    last_step_collisions := 0, active_contacts := [], invincible_teams := [] }

/-- A 5-hp body between two enemies: the first impact of its solver row
kills it, the second still runs. -/
def W6 : PhysicsWorld :=
  { width := 1000, height := 1000
    bodies := [mkB 0 "l" 50 50 0 0 10 1 1 5, mkB 1 "r" 56 50 (-2) 0 10 1 1 100,
               mkB 2 "r" 40 50 0 0 10 1 1 100]
    tuning := tun0, time_elapsed := 0, total_collisions := 0
    last_step_collisions := 0, active_contacts := [], invincible_teams := [] }

/-- W6's bodies as a fresh solver state. -/
def s60 : SolverState :=
  { bodies := W6.bodies, contacts := [], impacts := [], collisions := 0,
    fireLog := [] }

/-- The state after the solver examined the pair (0, 1): body 0 is dead. -/
def s61 : SolverState := processPair ratSqrt rpLin tun0 [] [] s60 0 1

/-- tun0 with damage scaling on (recoil_scale still 0). -/
def tunX4 : PhysicsTuning := { tun0 with damage_scale := 1 }

/-- tun0 with damage scaling and recoil scaling on. -/
def tunW4 : PhysicsTuning := { tun0 with damage_scale := 1, recoil_scale := 1 }

/-- Weak side of the asymmetry pair, 100 hp. -/
def cA : PhysicsBody := mkB 0 "l" 50 50 1 0 10 1 1 100

/-- Strong side of the asymmetry pair, 100 hp. -/
def cB : PhysicsBody := mkB 1 "r" 56 50 (-1) 0 10 1 2 100

/-- Weak side of the asymmetry pair, 1000 hp. -/
def bA : PhysicsBody := mkB 0 "l" 50 50 1 0 10 1 1 1000

/-- Strong side of the asymmetry pair, 1000 hp. -/
def bB : PhysicsBody := mkB 1 "r" 56 50 (-1) 0 10 1 2 1000

/-- A dead body as one successful step leaves it: position kept, motion
and timers forced to zero. -/
def frozenBody (c : PhysicsBody) : PhysicsBody :=
  { c with last_damage := 0, vx := 0, vy := 0, stagger_timer := 0,
           ability_cooldown := 0 }

/-- A dead body high above the floor, with stale stored velocity. -/
def cD : PhysicsBody := mkB 0 "l" 200 70 3 4 10 1 1 0

/-- The world holding only cD. -/
def WD : PhysicsWorld :=
  { width := 1000, height := 1000, bodies := [cD], tuning := tun0
    time_elapsed := 0, total_collisions := 0, last_step_collisions := 0
    active_contacts := [], invincible_teams := [] }

/-- The source-default tuning bundle. -/
def tunDefault : PhysicsTuning := {}

/-- A healthy healer at (50, 50). -/
def healerH : PhysicsBody :=
  { body_id := 0, team := "l", x := 50, y := 50, vx := 0, vy := 0
    radius := 10, mass := 1, color := "c", power := 1, role := "healer"
    forward_dir := 0, max_hp := 100, hp := 100, stagger_timer := 0
    last_damage := 0, ability_cooldown := 0 }

/-- A damaged ally 10 units from the healer. -/
def allyH : PhysicsBody :=
  { body_id := 1, team := "l", x := 60, y := 50, vx := 0, vy := 0
    radius := 10, mass := 1, color := "c", power := 1, role := "dealer"
    forward_dir := 0, max_hp := 100, hp := 40, stagger_timer := 0
    last_damage := 0, ability_cooldown := 0 }

/-- A damaged healer alone in its world. -/
def soloH : PhysicsBody :=
  { body_id := 0, team := "l", x := 50, y := 50, vx := 0, vy := 0
    radius := 10, mass := 1, color := "c", power := 1, role := "healer"
    forward_dir := 0, max_hp := 100, hp := 40, stagger_timer := 0
    last_damage := 0, ability_cooldown := 0 }

/-! ## Generic helpers -/

theorem foldl_preserve {α β : Type _} {f : α → β → α} {P : α → Prop}
    (h : ∀ a b, P a → P (f a b)) :
    ∀ (l : List β) (a : α), P a → P (l.foldl f a) := by
  intro l
  induction l with
  | nil => intro a ha; exact ha
  | cons x xs ih => intro a ha; exact ih _ (h a x ha)

/-- The fields of a body that no step-internal mutation ever writes. -/
def sameStats (b b2 : PhysicsBody) : Prop :=
  b2.body_id = b.body_id ∧ b2.team = b.team ∧ b2.radius = b.radius ∧
  b2.mass = b.mass ∧ b2.power = b.power ∧ b2.max_hp = b.max_hp ∧
  b2.role = b.role ∧ b2.color = b.color ∧ b2.forward_dir = b.forward_dir

theorem sameStats_refl (b : PhysicsBody) : sameStats b b :=
  ⟨rfl, rfl, rfl, rfl, rfl, rfl, rfl, rfl, rfl⟩

/-! ## Shape lemmas: which fields each engine function can write -/

theorem resolveWallCollision_shape (t : PhysicsTuning) (wid hgt : ℚ)
    (b : PhysicsBody) : ∃ x y vx vy, resolveWallCollision t wid hgt b =
      { b with x := x, y := y, vx := vx, vy := vy } := by
  unfold resolveWallCollision
  dsimp only
  split_ifs <;> exact ⟨_, _, _, _, rfl⟩

theorem integrateBody_dead (t : PhysicsTuning) (wid hgt dt damping : ℚ)
    (b : PhysicsBody) (hd : ¬ (0 < b.hp)) :
    integrateBody t wid hgt dt damping b =
      { b with last_damage := 0, vx := 0, vy := 0, stagger_timer := 0,
               ability_cooldown := 0 } := by
  unfold integrateBody
  simp only [hd]
  rfl

set_option maxHeartbeats 2000000 in
theorem integrateBody_alive_shape (t : PhysicsTuning) (wid hgt dt damping : ℚ)
    (b : PhysicsBody) (ha : 0 < b.hp) :
    ∃ x y vx vy st cd, integrateBody t wid hgt dt damping b =
      { b with last_damage := 0, x := x, y := y, vx := vx, vy := vy,
               stagger_timer := st, ability_cooldown := cd } := by
  unfold integrateBody
  simp only [ha, not_true_eq_false, if_false]
  dsimp only
  split_ifs <;>
    (obtain ⟨x, y, vx, vy, h⟩ := resolveWallCollision_shape t wid hgt _) <;>
    (rw [h]; exact ⟨_, _, _, _, _, _, rfl⟩)

theorem applyImpactEffects_fst (rp : ℚ → ℚ → ℚ) (t : PhysicsTuning)
    (inv : List String) (a b : PhysicsBody) (nx : ℚ) :
    (applyImpactEffects rp t inv a b nx).1 =
      { a with
        vx := a.vx - nx * ((t.min_recoil_speed +
          incomingStrength rp t b a * t.recoil_scale) / a.mass)
        vy := a.vy - min t.max_launch_speed ((t.min_launch_speed +
          incomingStrength rp t b a * t.launch_scale) * t.launch_height_scale) / a.mass
        hp := if isTeamInvincibleL inv a.team then a.hp
          else max 0 (a.hp - impactDamage rp t b a)
        last_damage := if isTeamInvincibleL inv a.team then 0
          else impactDamage rp t b a
        stagger_timer := max a.stagger_timer (min t.max_stagger
          (t.stagger_base + incomingStrength rp t b a * t.stagger_scale)) } := by
  unfold applyImpactEffects
  dsimp only
  split_ifs <;> rfl

theorem applyImpactEffects_snd (rp : ℚ → ℚ → ℚ) (t : PhysicsTuning)
    (inv : List String) (a b : PhysicsBody) (nx : ℚ) :
    (applyImpactEffects rp t inv a b nx).2 =
      { b with
        vx := b.vx + nx * ((t.min_recoil_speed +
          incomingStrength rp t a b * t.recoil_scale) / b.mass)
        vy := b.vy - min t.max_launch_speed ((t.min_launch_speed +
          incomingStrength rp t a b * t.launch_scale) * t.launch_height_scale) / b.mass
        hp := if isTeamInvincibleL inv b.team then b.hp
          else max 0 (b.hp - impactDamage rp t a b)
        last_damage := if isTeamInvincibleL inv b.team then 0
          else impactDamage rp t a b
        stagger_timer := max b.stagger_timer (min t.max_stagger
          (t.stagger_base + incomingStrength rp t a b * t.stagger_scale)) } := by
  unfold applyImpactEffects
  dsimp only
  split_ifs <;> rfl

/-- The first-contact gate of the Impact Effect Model, as the source tests
it (lines 392-396): previous-tick contact set, this-tick impact set, and
an approaching relative normal velocity. -/
def FireCond (sq : ℚ → ℚ) (prev impacts : List (ℕ × ℕ)) (a b : PhysicsBody) :
    Prop :=
  pairKey a b ∉ prev ∧ pairKey a b ∉ impacts ∧ relNormalSpeed sq a b < 0

instance (sq : ℚ → ℚ) (prev impacts : List (ℕ × ℕ)) (a b : PhysicsBody) :
    Decidable (FireCond sq prev impacts a b) := by
  unfold FireCond
  infer_instance

theorem collidePair_fired_iff (sq : ℚ → ℚ) (rp : ℚ → ℚ → ℚ) (t : PhysicsTuning)
    (inv : List String) (prev impacts : List (ℕ × ℕ)) (a b : PhysicsBody) :
    (collidePair sq rp t inv prev impacts a b).fired = true ↔
      FireCond sq prev impacts a b := by
  unfold collidePair FireCond
  dsimp only
  exact decide_eq_true_iff

set_option maxHeartbeats 1000000 in
theorem collidePair_a2_hp (sq : ℚ → ℚ) (rp : ℚ → ℚ → ℚ) (t : PhysicsTuning)
    (inv : List String) (prev impacts : List (ℕ × ℕ)) (a b : PhysicsBody) :
    (collidePair sq rp t inv prev impacts a b).a2.hp =
      if FireCond sq prev impacts a b then
        (if isTeamInvincibleL inv a.team then a.hp
         else max 0 (a.hp - impactDamage rp t b a))
      else a.hp := by
  unfold collidePair FireCond
  dsimp only
  split_ifs <;> simp_all [applyImpactEffects_fst, impactDamage, incomingStrength]

set_option maxHeartbeats 1000000 in
theorem collidePair_b2_hp (sq : ℚ → ℚ) (rp : ℚ → ℚ → ℚ) (t : PhysicsTuning)
    (inv : List String) (prev impacts : List (ℕ × ℕ)) (a b : PhysicsBody) :
    (collidePair sq rp t inv prev impacts a b).b2.hp =
      if FireCond sq prev impacts a b then
        (if isTeamInvincibleL inv b.team then b.hp
         else max 0 (b.hp - impactDamage rp t a b))
      else b.hp := by
  unfold collidePair FireCond
  dsimp only
  split_ifs <;> simp_all [applyImpactEffects_snd, impactDamage, incomingStrength]

set_option maxHeartbeats 1000000 in
theorem collidePair_a2_last_damage (sq : ℚ → ℚ) (rp : ℚ → ℚ → ℚ)
    (t : PhysicsTuning) (inv : List String) (prev impacts : List (ℕ × ℕ))
    (a b : PhysicsBody) :
    (collidePair sq rp t inv prev impacts a b).a2.last_damage =
      if FireCond sq prev impacts a b then
        (if isTeamInvincibleL inv a.team then 0 else impactDamage rp t b a)
      else a.last_damage := by
  unfold collidePair FireCond
  dsimp only
  split_ifs <;> simp_all [applyImpactEffects_fst, impactDamage, incomingStrength]

set_option maxHeartbeats 1000000 in
theorem collidePair_b2_last_damage (sq : ℚ → ℚ) (rp : ℚ → ℚ → ℚ)
    (t : PhysicsTuning) (inv : List String) (prev impacts : List (ℕ × ℕ))
    (a b : PhysicsBody) :
    (collidePair sq rp t inv prev impacts a b).b2.last_damage =
      if FireCond sq prev impacts a b then
        (if isTeamInvincibleL inv b.team then 0 else impactDamage rp t a b)
      else b.last_damage := by
  unfold collidePair FireCond
  dsimp only
  split_ifs <;> simp_all [applyImpactEffects_snd, impactDamage, incomingStrength]

set_option maxHeartbeats 1000000 in
theorem collidePair_a2_stats (sq : ℚ → ℚ) (rp : ℚ → ℚ → ℚ) (t : PhysicsTuning)
    (inv : List String) (prev impacts : List (ℕ × ℕ)) (a b : PhysicsBody) :
    sameStats a (collidePair sq rp t inv prev impacts a b).a2 ∧
      (collidePair sq rp t inv prev impacts a b).a2.ability_cooldown =
        a.ability_cooldown := by
  unfold collidePair sameStats
  dsimp only
  split_ifs <;> simp_all [applyImpactEffects_fst]

set_option maxHeartbeats 1000000 in
theorem collidePair_b2_stats (sq : ℚ → ℚ) (rp : ℚ → ℚ → ℚ) (t : PhysicsTuning)
    (inv : List String) (prev impacts : List (ℕ × ℕ)) (a b : PhysicsBody) :
    sameStats b (collidePair sq rp t inv prev impacts a b).b2 ∧
      (collidePair sq rp t inv prev impacts a b).b2.ability_cooldown =
        b.ability_cooldown := by
  unfold collidePair sameStats
  dsimp only
  split_ifs <;> simp_all [applyImpactEffects_snd]

/-! ## Tuning bounds extracted from a successful validate -/

/-- The positive-form reading of the 32 checks of PhysicsTuning.validate. -/
def TuningBounds (t : PhysicsTuning) : Prop :=
  0 ≤ t.restitution ∧ 0 ≤ t.wall_restitution ∧ 0 ≤ t.linear_damping ∧
  0 ≤ t.friction ∧ 0 ≤ t.wall_friction ∧ 0 ≤ t.ground_friction ∧
  0 ≤ t.ground_snap_speed ∧ 0 < t.collision_boost ∧ 0 < t.solver_passes ∧
  (0 ≤ t.position_correction ∧ t.position_correction ≤ 1) ∧
  0 < t.mass_power_impact_scale ∧ 0 ≤ t.power_ratio_exponent ∧
  0 < t.impact_speed_cap ∧ 0 ≤ t.min_recoil_speed ∧ 0 ≤ t.recoil_scale ∧
  0 ≤ t.min_launch_speed ∧ 0 ≤ t.launch_scale ∧ 0 < t.launch_height_scale ∧
  0 < t.max_launch_speed ∧ 0 ≤ t.damage_base ∧ 0 ≤ t.damage_scale ∧
  0 ≤ t.stagger_base ∧ 0 ≤ t.stagger_scale ∧ 0 ≤ t.max_stagger ∧
  0 ≤ t.stagger_drive_multiplier ∧ 0 < t.ranged_attack_cooldown ∧
  0 < t.ranged_attack_range ∧ 0 ≤ t.ranged_knockback_force ∧
  0 ≤ t.ranged_damage ∧ 0 < t.healer_cooldown ∧ 0 < t.healer_range ∧
  0 ≤ t.healer_amount

theorem validate_ok_bounds (t : PhysicsTuning) (h : t.validate = .ok ()) :
    TuningBounds t := by
  unfold PhysicsTuning.validate at h
  by_cases h1 : t.restitution < 0
  · rw [if_pos h1] at h
    exact Except.noConfusion h
  rw [if_neg h1] at h
  by_cases h2 : t.wall_restitution < 0
  · rw [if_pos h2] at h
    exact Except.noConfusion h
  rw [if_neg h2] at h
  by_cases h3 : t.linear_damping < 0
  · rw [if_pos h3] at h
    exact Except.noConfusion h
  rw [if_neg h3] at h
  by_cases h4 : t.friction < 0
  · rw [if_pos h4] at h
    exact Except.noConfusion h
  rw [if_neg h4] at h
  by_cases h5 : t.wall_friction < 0
  · rw [if_pos h5] at h
    exact Except.noConfusion h
  rw [if_neg h5] at h
  by_cases h6 : t.ground_friction < 0
  · rw [if_pos h6] at h
    exact Except.noConfusion h
  rw [if_neg h6] at h
  by_cases h7 : t.ground_snap_speed < 0
  · rw [if_pos h7] at h
    exact Except.noConfusion h
  rw [if_neg h7] at h
  by_cases h8 : t.collision_boost ≤ 0
  · rw [if_pos h8] at h
    exact Except.noConfusion h
  rw [if_neg h8] at h
  by_cases h9 : t.solver_passes = 0
  · rw [if_pos h9] at h
    exact Except.noConfusion h
  rw [if_neg h9] at h
  by_cases h10 : ¬ (0 ≤ t.position_correction ∧ t.position_correction ≤ 1)
  · rw [if_pos h10] at h
    exact Except.noConfusion h
  rw [if_neg h10] at h
  by_cases h11 : t.mass_power_impact_scale ≤ 0
  · rw [if_pos h11] at h
    exact Except.noConfusion h
  rw [if_neg h11] at h
  by_cases h12 : t.power_ratio_exponent < 0
  · rw [if_pos h12] at h
    exact Except.noConfusion h
  rw [if_neg h12] at h
  by_cases h13 : t.impact_speed_cap ≤ 0
  · rw [if_pos h13] at h
    exact Except.noConfusion h
  rw [if_neg h13] at h
  by_cases h14 : t.min_recoil_speed < 0
  · rw [if_pos h14] at h
    exact Except.noConfusion h
  rw [if_neg h14] at h
  by_cases h15 : t.recoil_scale < 0
  · rw [if_pos h15] at h
    exact Except.noConfusion h
  rw [if_neg h15] at h
  by_cases h16 : t.min_launch_speed < 0
  · rw [if_pos h16] at h
    exact Except.noConfusion h
  rw [if_neg h16] at h
  by_cases h17 : t.launch_scale < 0
  · rw [if_pos h17] at h
    exact Except.noConfusion h
  rw [if_neg h17] at h
  by_cases h18 : t.launch_height_scale ≤ 0
  · rw [if_pos h18] at h
    exact Except.noConfusion h
  rw [if_neg h18] at h
  by_cases h19 : t.max_launch_speed ≤ 0
  · rw [if_pos h19] at h
    exact Except.noConfusion h
  rw [if_neg h19] at h
  by_cases h20 : t.damage_base < 0
  · rw [if_pos h20] at h
    exact Except.noConfusion h
  rw [if_neg h20] at h
  by_cases h21 : t.damage_scale < 0
  · rw [if_pos h21] at h
    exact Except.noConfusion h
  rw [if_neg h21] at h
  by_cases h22 : t.stagger_base < 0
  · rw [if_pos h22] at h
    exact Except.noConfusion h
  rw [if_neg h22] at h
  by_cases h23 : t.stagger_scale < 0
  · rw [if_pos h23] at h
    exact Except.noConfusion h
  rw [if_neg h23] at h
  by_cases h24 : t.max_stagger < 0
  · rw [if_pos h24] at h
    exact Except.noConfusion h
  rw [if_neg h24] at h
  by_cases h25 : t.stagger_drive_multiplier < 0
  · rw [if_pos h25] at h
    exact Except.noConfusion h
  rw [if_neg h25] at h
  by_cases h26 : t.ranged_attack_cooldown ≤ 0
  · rw [if_pos h26] at h
    exact Except.noConfusion h
  rw [if_neg h26] at h
  by_cases h27 : t.ranged_attack_range ≤ 0
  · rw [if_pos h27] at h
    exact Except.noConfusion h
  rw [if_neg h27] at h
  by_cases h28 : t.ranged_knockback_force < 0
  · rw [if_pos h28] at h
    exact Except.noConfusion h
  rw [if_neg h28] at h
  by_cases h29 : t.ranged_damage < 0
  · rw [if_pos h29] at h
    exact Except.noConfusion h
  rw [if_neg h29] at h
  by_cases h30 : t.healer_cooldown ≤ 0
  · rw [if_pos h30] at h
    exact Except.noConfusion h
  rw [if_neg h30] at h
  by_cases h31 : t.healer_range ≤ 0
  · rw [if_pos h31] at h
    exact Except.noConfusion h
  rw [if_neg h31] at h
  by_cases h32 : t.healer_amount < 0
  · rw [if_pos h32] at h
    exact Except.noConfusion h
  rw [if_neg h32] at h
  exact ⟨not_lt.mp h1, not_lt.mp h2, not_lt.mp h3, not_lt.mp h4, not_lt.mp h5, not_lt.mp h6, not_lt.mp h7, not_le.mp h8, Nat.pos_of_ne_zero h9, not_not.mp h10, not_le.mp h11, not_lt.mp h12, not_le.mp h13, not_lt.mp h14, not_lt.mp h15, not_lt.mp h16, not_lt.mp h17, not_le.mp h18, not_le.mp h19, not_lt.mp h20, not_lt.mp h21, not_lt.mp h22, not_lt.mp h23, not_lt.mp h24, not_lt.mp h25, not_le.mp h26, not_le.mp h27, not_lt.mp h28, not_lt.mp h29, not_le.mp h30, not_le.mp h31, not_lt.mp h32⟩


/-! ## The per-body invariant -/

/-- 0 ≤ hp ≤ max_hp, radius > 0, mass > 0, power > 0, max_hp > 0. -/
def BodyInv (b : PhysicsBody) : Prop :=
  0 ≤ b.hp ∧ b.hp ≤ b.max_hp ∧ 0 < b.radius ∧ 0 < b.mass ∧ 0 < b.power ∧
    0 < b.max_hp

theorem sameStats_bodyInv {b b2 : PhysicsBody} (hs : sameStats b b2)
    (hhp0 : 0 ≤ b2.hp) (hhp1 : b2.hp ≤ b.max_hp) (hinv : BodyInv b) :
    BodyInv b2 := by
  obtain ⟨_, _, hr, hm, hp, hmx, _, _, _⟩ := hs
  exact ⟨hhp0, by rw [hmx]; exact hhp1, hr ▸ hinv.2.2.1, hm ▸ hinv.2.2.2.1,
    hp ▸ hinv.2.2.2.2.1, hmx ▸ hinv.2.2.2.2.2⟩

theorem mkPhysicsBody_ok_inv (body_id : ℕ) (team : String)
    (x y vx vy radius mass : ℚ) (color : String) (power : ℚ) (role : String)
    (forward_dir max_hp hp stagger_timer last_damage ability_cooldown : ℚ)
    (b : PhysicsBody)
    (h : mkPhysicsBody body_id team x y vx vy radius mass color power role
      forward_dir max_hp hp stagger_timer last_damage ability_cooldown =
        .ok b) : BodyInv b := by
  unfold mkPhysicsBody at h
  split_ifs at h with g1 g2 g3 g4 g5 g6 g7 gmax <;> injection h with h <;> subst h
  · exact ⟨by linarith [not_le.mp g4], le_refl _, not_le.mp g1, not_le.mp g2,
      not_le.mp g3, not_le.mp g4⟩
  · exact ⟨not_lt.mp g5, not_lt.mp gmax, not_le.mp g1, not_le.mp g2,
      not_le.mp g3, not_le.mp g4⟩

/-! ## Incoming strength and damage positivity -/

theorem incomingStrength_nonneg (rp : ℚ → ℚ → ℚ) (t : PhysicsTuning)
    (attacker defender : PhysicsBody)
    (hrp : ∀ x e, 0 < x → 0 ≤ rp x e)
    (hmps : 0 ≤ t.mass_power_impact_scale) (hcap : 0 ≤ t.impact_speed_cap)
    (hma : 0 ≤ attacker.mass) : 0 ≤ incomingStrength rp t attacker defender := by
  unfold incomingStrength
  dsimp only
  have hpr : 0 < max (1/1000000 : ℚ) attacker.power / max (1/1000000) defender.power := by
    apply div_pos <;> exact lt_max_of_lt_left (by norm_num)
  have hmr : 0 ≤ attacker.mass / max (1/1000000 : ℚ) defender.mass :=
    div_nonneg hma (le_max_of_le_left (by norm_num))
  exact le_min hcap (mul_nonneg (mul_nonneg hmps hmr) (hrp _ _ hpr))

theorem impactDamage_nonneg (rp : ℚ → ℚ → ℚ) (t : PhysicsTuning)
    (attacker defender : PhysicsBody)
    (hrp : ∀ x e, 0 < x → 0 ≤ rp x e)
    (hmps : 0 ≤ t.mass_power_impact_scale) (hcap : 0 ≤ t.impact_speed_cap)
    (hdb : 0 ≤ t.damage_base) (hds : 0 ≤ t.damage_scale)
    (hma : 0 ≤ attacker.mass) : 0 ≤ impactDamage rp t attacker defender := by
  unfold impactDamage
  have := incomingStrength_nonneg rp t attacker defender hrp hmps hcap hma
  positivity

/-! ## processPair case analysis -/

/-- Circle overlap as tested on line 326. -/
def Overlap (a b : PhysicsBody) : Prop :=
  (b.x - a.x) * (b.x - a.x) + (b.y - a.y) * (b.y - a.y) <
    (a.radius + b.radius) * (a.radius + b.radius)

instance (a b : PhysicsBody) : Decidable (Overlap a b) := by
  unfold Overlap
  infer_instance

theorem processPair_cases (sq : ℚ → ℚ) (rp : ℚ → ℚ → ℚ) (t : PhysicsTuning)
    (inv : List String) (prev : List (ℕ × ℕ)) (s : SolverState) (i j : ℕ) :
    processPair sq rp t inv prev s i j = s ∨
    ∃ a b, s.bodies[i]? = some a ∧ s.bodies[j]? = some b ∧ (0 < b.hp) ∧
      a.team ≠ b.team ∧ Overlap a b ∧
      processPair sq rp t inv prev s i j =
        { bodies := (s.bodies.set i
              (collidePair sq rp t inv prev s.impacts a b).a2).set j
              (collidePair sq rp t inv prev s.impacts a b).b2
          contacts := addPair (pairKey a b) s.contacts
          impacts := if (collidePair sq rp t inv prev s.impacts a b).fired then
              addPair (pairKey a b) s.impacts else s.impacts
          collisions := s.collisions + 1
          fireLog := if (collidePair sq rp t inv prev s.impacts a b).fired then
              pairKey a b :: s.fireLog else s.fireLog } := by
  cases hi : s.bodies[i]? with
  | none => left; simp only [processPair, hi]
  | some a =>
    cases hj : s.bodies[j]? with
    | none => left; simp only [processPair, hi, hj]
    | some b =>
      simp only [processPair, hi, hj]
      by_cases hb : 0 < b.hp
      · rw [if_neg (not_not_intro hb)]
        by_cases ht : a.team = b.team
        · rw [if_pos ht]
          left
          rfl
        · rw [if_neg ht]
          by_cases ho : (a.radius + b.radius) * (a.radius + b.radius) ≤
              (b.x - a.x) * (b.x - a.x) + (b.y - a.y) * (b.y - a.y)
          · rw [if_pos ho]
            left
            rfl
          · rw [if_neg ho]
            right
            exact ⟨a, b, rfl, rfl, hb, ht, not_le.mp ho, rfl⟩
      · rw [if_pos hb]
        left
        rfl

theorem processPair_bodies_length (sq : ℚ → ℚ) (rp : ℚ → ℚ → ℚ)
    (t : PhysicsTuning) (inv : List String) (prev : List (ℕ × ℕ))
    (s : SolverState) (i j : ℕ) :
    (processPair sq rp t inv prev s i j).bodies.length = s.bodies.length := by
  rcases processPair_cases sq rp t inv prev s i j with h | ⟨a, b, _, _, _, _, _, h⟩ <;>
    rw [h] <;> simp

theorem processPair_getElem?_other (sq : ℚ → ℚ) (rp : ℚ → ℚ → ℚ)
    (t : PhysicsTuning) (inv : List String) (prev : List (ℕ × ℕ))
    (s : SolverState) (i j k : ℕ) (hki : k ≠ i) (hkj : k ≠ j) :
    (processPair sq rp t inv prev s i j).bodies[k]? = s.bodies[k]? := by
  rcases processPair_cases sq rp t inv prev s i j with h | ⟨a, b, _, _, _, _, _, h⟩ <;>
    rw [h]
  simp only
  rw [List.getElem?_set_ne hkj.symm, List.getElem?_set_ne hki.symm]

theorem processPair_dead_j (sq : ℚ → ℚ) (rp : ℚ → ℚ → ℚ) (t : PhysicsTuning)
    (inv : List String) (prev : List (ℕ × ℕ)) (s : SolverState) (i j : ℕ)
    (b : PhysicsBody) (hj : s.bodies[j]? = some b) (hd : ¬ (0 < b.hp)) :
    processPair sq rp t inv prev s i j = s := by
  rcases processPair_cases sq rp t inv prev s i j with h | ⟨a, b2, _, hj2, hb2, _, _, _⟩
  · exact h
  · rw [hj] at hj2
    injection hj2 with hj2
    exact absurd (hj2 ▸ hb2) hd

theorem processPair_same_team (sq : ℚ → ℚ) (rp : ℚ → ℚ → ℚ) (t : PhysicsTuning)
    (inv : List String) (prev : List (ℕ × ℕ)) (s : SolverState) (i j : ℕ)
    (a b : PhysicsBody) (hi : s.bodies[i]? = some a) (hj : s.bodies[j]? = some b)
    (hteam : a.team = b.team) : processPair sq rp t inv prev s i j = s := by
  rcases processPair_cases sq rp t inv prev s i j with h | ⟨a2, b2, hi2, hj2, _, ht2, _, _⟩
  · exact h
  · rw [hi] at hi2
    rw [hj] at hj2
    injection hi2 with hi2
    injection hj2 with hj2
    exact absurd (hi2 ▸ hj2 ▸ hteam) ht2

theorem processRow_dead (sq : ℚ → ℚ) (rp : ℚ → ℚ → ℚ) (t : PhysicsTuning)
    (inv : List String) (prev : List (ℕ × ℕ)) (n : ℕ) (s : SolverState) (i : ℕ)
    (a : PhysicsBody) (hi : s.bodies[i]? = some a) (hd : ¬ (0 < a.hp)) :
    processRow sq rp t inv prev n s i = s := by
  unfold processRow
  rw [hi]
  simp only [hd, not_false_eq_true, if_true]

/-! ## Invariant chain 1: BodyInv for every body -/

/-- The assumption that the embedded float power operator returns
nonnegative values on positive bases, as the real ** does. -/
def RpNonneg (rp : ℚ → ℚ → ℚ) : Prop := ∀ x e, 0 < x → 0 ≤ rp x e

def AllInv (bodies : List PhysicsBody) : Prop := ∀ b ∈ bodies, BodyInv b

theorem collidePair_inv (sq : ℚ → ℚ) (rp : ℚ → ℚ → ℚ) (t : PhysicsTuning)
    (inv : List String) (prev impacts : List (ℕ × ℕ)) (a b : PhysicsBody)
    (hrp : RpNonneg rp) (ht : TuningBounds t) (ha : BodyInv a) (hb : BodyInv b) :
    BodyInv (collidePair sq rp t inv prev impacts a b).a2 ∧
      BodyInv (collidePair sq rp t inv prev impacts a b).b2 := by
  obtain ⟨hsa, hca⟩ := collidePair_a2_stats sq rp t inv prev impacts a b
  obtain ⟨hsb, hcb⟩ := collidePair_b2_stats sq rp t inv prev impacts a b
  have hda : 0 ≤ impactDamage rp t b a :=
    impactDamage_nonneg rp t b a hrp ht.2.2.2.2.2.2.2.2.2.2.1.le
      ht.2.2.2.2.2.2.2.2.2.2.2.2.1.le ht.2.2.2.2.2.2.2.2.2.2.2.2.2.2.2.2.2.2.2.1
      ht.2.2.2.2.2.2.2.2.2.2.2.2.2.2.2.2.2.2.2.2.1 hb.2.2.2.1.le
  have hdb : 0 ≤ impactDamage rp t a b :=
    impactDamage_nonneg rp t a b hrp ht.2.2.2.2.2.2.2.2.2.2.1.le
      ht.2.2.2.2.2.2.2.2.2.2.2.2.1.le ht.2.2.2.2.2.2.2.2.2.2.2.2.2.2.2.2.2.2.2.1
      ht.2.2.2.2.2.2.2.2.2.2.2.2.2.2.2.2.2.2.2.2.1 ha.2.2.2.1.le
  constructor
  · refine sameStats_bodyInv hsa ?_ ?_ ha
    · rw [collidePair_a2_hp]
      split_ifs
      · exact ha.1
      · exact le_max_left 0 _
      · exact ha.1
    · rw [collidePair_a2_hp]
      split_ifs
      · exact ha.2.1
      · exact max_le ha.2.2.2.2.2.le (by linarith [ha.2.1])
      · exact ha.2.1
  · refine sameStats_bodyInv hsb ?_ ?_ hb
    · rw [collidePair_b2_hp]
      split_ifs
      · exact hb.1
      · exact le_max_left 0 _
      · exact hb.1
    · rw [collidePair_b2_hp]
      split_ifs
      · exact hb.2.1
      · exact max_le hb.2.2.2.2.2.le (by linarith [hb.2.1])
      · exact hb.2.1

theorem processPair_inv (sq : ℚ → ℚ) (rp : ℚ → ℚ → ℚ) (t : PhysicsTuning)
    (inv : List String) (prev : List (ℕ × ℕ)) (s : SolverState) (i j : ℕ)
    (hrp : RpNonneg rp) (ht : TuningBounds t) (hs : AllInv s.bodies) :
    AllInv (processPair sq rp t inv prev s i j).bodies := by
  rcases processPair_cases sq rp t inv prev s i j with h | ⟨a, b, hi, hj, _, _, _, h⟩
  · rw [h]; exact hs
  · rw [h]
    intro c hc
    have hmem := List.getElem?_mem hi
    have hmem2 := List.getElem?_mem hj
    obtain ⟨hinv2, hinv3⟩ := collidePair_inv sq rp t inv prev s.impacts a b hrp ht
      (hs a hmem) (hs b hmem2)
    rcases List.mem_or_eq_of_mem_set hc with hc2 | hc2
    · rcases List.mem_or_eq_of_mem_set hc2 with hc3 | hc3
      · exact hs c hc3
      · exact hc3 ▸ hinv2
    · exact hc2 ▸ hinv3

theorem processRow_inv (sq : ℚ → ℚ) (rp : ℚ → ℚ → ℚ) (t : PhysicsTuning)
    (inv : List String) (prev : List (ℕ × ℕ)) (n : ℕ) (s : SolverState) (i : ℕ)
    (hrp : RpNonneg rp) (ht : TuningBounds t) (hs : AllInv s.bodies) :
    AllInv (processRow sq rp t inv prev n s i).bodies := by
  unfold processRow
  cases hi : s.bodies[i]? with
  | none => exact hs
  | some a =>
    dsimp only
    split_ifs
    · exact foldl_preserve
        (fun s2 j h2 => processPair_inv sq rp t inv prev s2 i j hrp ht h2) _ s hs
    · exact hs

theorem runSolver_inv (sq : ℚ → ℚ) (rp : ℚ → ℚ → ℚ) (t : PhysicsTuning)
    (inv : List String) (prev : List (ℕ × ℕ)) (passes : ℕ) (s : SolverState)
    (hrp : RpNonneg rp) (ht : TuningBounds t) (hs : AllInv s.bodies) :
    AllInv (runSolver sq rp t inv prev passes s).bodies := by
  induction passes generalizing s with
  | zero => exact hs
  | succ k ih =>
    exact ih _ (foldl_preserve
      (fun s2 i h2 => processRow_inv sq rp t inv prev _ s2 i hrp ht h2) _ s hs)

/-! ## Ability-system helper lemmas -/

theorem healAt_cases (bodies : List PhysicsBody) (idx : ℕ) (amount : ℚ) :
    healAt bodies idx amount = bodies ∨
    ∃ tgt, bodies[idx]? = some tgt ∧ healAt bodies idx amount =
      bodies.set idx { tgt with hp := min tgt.max_hp (tgt.hp + amount) } := by
  unfold healAt
  cases h : bodies[idx]? with
  | none => left; rfl
  | some tgt => right; exact ⟨tgt, rfl, rfl⟩

theorem setCooldown_cases (bodies : List PhysicsBody) (idx : ℕ) (v : ℚ) :
    setCooldown bodies idx v = bodies ∨
    ∃ b2, bodies[idx]? = some b2 ∧ setCooldown bodies idx v =
      bodies.set idx { b2 with ability_cooldown := v } := by
  unfold setCooldown
  cases h : bodies[idx]? with
  | none => left; rfl
  | some b2 => right; exact ⟨b2, rfl, rfl⟩

theorem applyRangedKnockbackAt_cases (sq : ℚ → ℚ) (t : PhysicsTuning)
    (inv : List String) (bodies : List PhysicsBody) (actorIdx targetIdx : ℕ)
    (force damage : ℚ) :
    applyRangedKnockbackAt sq t inv bodies actorIdx targetIdx force damage =
      bodies ∨
    ∃ actor target t2, bodies[actorIdx]? = some actor ∧
      bodies[targetIdx]? = some target ∧ 0 < target.hp ∧
      applyRangedKnockbackAt sq t inv bodies actorIdx targetIdx force damage =
        bodies.set targetIdx t2 ∧
      sameStats target t2 ∧ t2.ability_cooldown = target.ability_cooldown ∧
      t2.hp = (if 0 < damage ∧ ¬ isTeamInvincibleL inv target.team then
          max 0 (target.hp - damage * max (6/10) actor.power) else target.hp) ∧
      t2.last_damage = (if 0 < damage ∧ ¬ isTeamInvincibleL inv target.team then
          max target.last_damage (damage * max (6/10) actor.power)
        else target.last_damage) := by
  unfold applyRangedKnockbackAt
  cases ha : bodies[actorIdx]? with
  | none => left; rfl
  | some actor =>
    cases htg : bodies[targetIdx]? with
    | none => left; rfl
    | some target =>
      dsimp only
      by_cases hd : 0 < target.hp
      · rw [if_neg (not_not_intro hd)]
        right
        refine ⟨actor, target, _, rfl, rfl, hd, rfl, ?_, ?_, ?_, ?_⟩ <;>
          (dsimp only; split_ifs <;> simp [sameStats])
      · rw [if_pos hd]
        left
        rfl

theorem applyRangedKnockbackAt_getElem?_other (sq : ℚ → ℚ) (t : PhysicsTuning)
    (inv : List String) (bodies : List PhysicsBody) (actorIdx targetIdx k : ℕ)
    (force damage : ℚ) (hk : k ≠ targetIdx) :
    (applyRangedKnockbackAt sq t inv bodies actorIdx targetIdx force damage)[k]? =
      bodies[k]? := by
  rcases applyRangedKnockbackAt_cases sq t inv bodies actorIdx targetIdx
    force damage with h | ⟨_, _, _, _, _, _, h, _⟩ <;> rw [h]
  exact List.getElem?_set_ne hk.symm

theorem applyRangedKnockbackAt_dead (sq : ℚ → ℚ) (t : PhysicsTuning)
    (inv : List String) (bodies : List PhysicsBody) (actorIdx targetIdx : ℕ)
    (force damage : ℚ) (tc : PhysicsBody) (htg : bodies[targetIdx]? = some tc)
    (hd : ¬ (0 < tc.hp)) :
    applyRangedKnockbackAt sq t inv bodies actorIdx targetIdx force damage =
      bodies := by
  rcases applyRangedKnockbackAt_cases sq t inv bodies actorIdx targetIdx
    force damage with h | ⟨_, target, _, _, htg2, halive, _, _⟩
  · exact h
  · rw [htg] at htg2
    injection htg2 with htg2
    exact absurd (htg2 ▸ halive) hd

/-! ## The weakest-ally scan: full functional specification -/

/-- Eligibility as _weakest_ally filters it: alive, same team, within the
squared range, positive max_hp, strictly below full health. -/
def EligAlly (actor : PhysicsBody) (rngSq : ℚ) (o : PhysicsBody) : Prop :=
  0 < o.hp ∧ o.team = actor.team ∧
  (o.x - actor.x) * (o.x - actor.x) + (o.y - actor.y) * (o.y - actor.y) ≤ rngSq ∧
  0 < o.max_hp ∧ o.hp < o.max_hp

instance (actor : PhysicsBody) (rngSq : ℚ) (o : PhysicsBody) :
    Decidable (EligAlly actor rngSq o) := by
  unfold EligAlly
  infer_instance

set_option maxHeartbeats 1000000 in
theorem weakestAllyGo_spec (actor : PhysicsBody) (rngSq : ℚ) :
    ∀ (L : List PhysicsBody) (j0 : ℕ) (st : Option ℕ × ℚ),
      ((weakestAllyGo actor rngSq L j0 st).2 ≤ st.2) ∧
      (∀ (m : ℕ) (o : PhysicsBody), L[m]? = some o → EligAlly actor rngSq o →
        (weakestAllyGo actor rngSq L j0 st).2 ≤ o.hp / o.max_hp) ∧
      (∀ k, (weakestAllyGo actor rngSq L j0 st).1 = some k →
        (st.1 = some k ∧ (weakestAllyGo actor rngSq L j0 st).2 = st.2) ∨
        (∃ (m : ℕ) (o : PhysicsBody), L[m]? = some o ∧ k = j0 + m ∧ EligAlly actor rngSq o ∧
          (weakestAllyGo actor rngSq L j0 st).2 = o.hp / o.max_hp)) ∧
      ((weakestAllyGo actor rngSq L j0 st).1 = none →
        st.1 = none ∧ (weakestAllyGo actor rngSq L j0 st).2 = st.2) := by
  intro L
  induction L with
  | nil =>
    intro j0 st
    refine ⟨le_refl _, ?_, ?_, ?_⟩
    · intro m o hm
      simp at hm
    · intro k h
      left
      exact ⟨h, rfl⟩
    · intro h
      exact ⟨h, rfl⟩
  | cons other rest ih =>
    intro j0 st
    have hstep : ∀ st2 : Option ℕ × ℚ,
        weakestAllyGo actor rngSq (other :: rest) j0 st =
          weakestAllyGo actor rngSq rest (j0 + 1) st2 →
        True := fun _ _ => trivial
    by_cases h1 : ¬ (0 < other.hp) ∨ other.team ≠ actor.team
    · have he : weakestAllyGo actor rngSq (other :: rest) j0 st =
          weakestAllyGo actor rngSq rest (j0 + 1) st := by
        conv_lhs => rw [weakestAllyGo]
        rw [if_pos h1]
      rw [he]
      obtain ⟨ihA, ihB, ihC, ihD⟩ := ih (j0 + 1) st
      refine ⟨ihA, ?_, ?_, ihD⟩
      · intro m o hm helig
        cases m with
        | zero =>
          simp only [List.getElem?_cons_zero] at hm
          injection hm with hm
          subst hm
          rcases h1 with h1 | h1
          · exact absurd helig.1 h1
          · exact absurd helig.2.1 h1
        | succ m2 =>
          simp only [List.getElem?_cons_succ] at hm
          exact ihB m2 o hm helig
      · intro k hk
        rcases ihC k hk with h | ⟨m, o, hm, hkm, helig, hval⟩
        · left
          exact h
        · right
          exact ⟨m + 1, o, by simpa using hm, by omega, helig, hval⟩
    · push_neg at h1
      by_cases h2 : rngSq < (other.x - actor.x) * (other.x - actor.x) +
          (other.y - actor.y) * (other.y - actor.y)
      · have he : weakestAllyGo actor rngSq (other :: rest) j0 st =
            weakestAllyGo actor rngSq rest (j0 + 1) st := by
          conv_lhs => rw [weakestAllyGo]
          rw [if_neg (by push_neg; exact h1), if_pos h2]
        rw [he]
        obtain ⟨ihA, ihB, ihC, ihD⟩ := ih (j0 + 1) st
        refine ⟨ihA, ?_, ?_, ihD⟩
        · intro m o hm helig
          cases m with
          | zero =>
            simp only [List.getElem?_cons_zero] at hm
            injection hm with hm
            subst hm
            exact absurd helig.2.2.1 (not_le.mpr h2)
          | succ m2 =>
            simp only [List.getElem?_cons_succ] at hm
            exact ihB m2 o hm helig
        · intro k hk
          rcases ihC k hk with h | ⟨m, o, hm, hkm, helig, hval⟩
          · left
            exact h
          · right
            exact ⟨m + 1, o, by simpa using hm, by omega, helig, hval⟩
      · by_cases h3 : other.max_hp ≤ 0
        · have he : weakestAllyGo actor rngSq (other :: rest) j0 st =
              weakestAllyGo actor rngSq rest (j0 + 1) st := by
            conv_lhs => rw [weakestAllyGo]
            rw [if_neg (by push_neg; exact h1), if_neg h2, if_pos h3]
          rw [he]
          obtain ⟨ihA, ihB, ihC, ihD⟩ := ih (j0 + 1) st
          refine ⟨ihA, ?_, ?_, ihD⟩
          · intro m o hm helig
            cases m with
            | zero =>
              simp only [List.getElem?_cons_zero] at hm
              injection hm with hm
              subst hm
              exact absurd helig.2.2.2.1 (not_lt.mpr h3)
            | succ m2 =>
              simp only [List.getElem?_cons_succ] at hm
              exact ihB m2 o hm helig
          · intro k hk
            rcases ihC k hk with h | ⟨m, o, hm, hkm, helig, hval⟩
            · left
              exact h
            · right
              exact ⟨m + 1, o, by simpa using hm, by omega, helig, hval⟩
        · by_cases h4 : other.hp / other.max_hp < st.2 ∧ other.hp < other.max_hp
          · have he : weakestAllyGo actor rngSq (other :: rest) j0 st =
                weakestAllyGo actor rngSq rest (j0 + 1)
                  (some j0, other.hp / other.max_hp) := by
              conv_lhs => rw [weakestAllyGo]
              rw [if_neg (by push_neg; exact h1), if_neg h2, if_neg h3, if_pos h4]
            rw [he]
            obtain ⟨ihA, ihB, ihC, ihD⟩ := ih (j0 + 1)
              (some j0, other.hp / other.max_hp)
            have helig : EligAlly actor rngSq other :=
              ⟨h1.1, h1.2, not_lt.mp h2, not_le.mp h3, h4.2⟩
            refine ⟨le_trans ihA h4.1.le, ?_, ?_, ?_⟩
            · intro m o hm holig
              cases m with
              | zero =>
                simp only [List.getElem?_cons_zero] at hm
                injection hm with hm
                subst hm
                exact ihA
              | succ m2 =>
                simp only [List.getElem?_cons_succ] at hm
                exact ihB m2 o hm holig
            · intro k hk
              rcases ihC k hk with ⟨hsome, hval⟩ | ⟨m, o, hm, hkm, holig, hval⟩
              · injection hsome with hsome
                right
                exact ⟨0, other, by simp, by omega, helig, hval⟩
              · right
                exact ⟨m + 1, o, by simpa using hm, by omega, holig, hval⟩
            · intro hk
              obtain ⟨hnone, _⟩ := ihD hk
              exact absurd hnone (by simp)
          · have he : weakestAllyGo actor rngSq (other :: rest) j0 st =
                weakestAllyGo actor rngSq rest (j0 + 1) st := by
              conv_lhs => rw [weakestAllyGo]
              rw [if_neg (by push_neg; exact h1), if_neg h2, if_neg h3, if_neg h4]
            rw [he]
            obtain ⟨ihA, ihB, ihC, ihD⟩ := ih (j0 + 1) st
            refine ⟨ihA, ?_, ?_, ihD⟩
            · intro m o hm helig
              cases m with
              | zero =>
                simp only [List.getElem?_cons_zero] at hm
                injection hm with hm
                subst hm
                have hge : st.2 ≤ other.hp / other.max_hp := by
                  rcases not_and_or.mp h4 with h | h
                  · exact not_lt.mp h
                  · exact absurd helig.2.2.2.2 h
                exact le_trans ihA hge
              | succ m2 =>
                simp only [List.getElem?_cons_succ] at hm
                exact ihB m2 o hm helig
            · intro k hk
              rcases ihC k hk with h | ⟨m, o, hm, hkm, helig, hval⟩
              · left
                exact h
              · right
                exact ⟨m + 1, o, by simpa using hm, by omega, helig, hval⟩

theorem weakestAllyIdx_some_spec (bodies : List PhysicsBody) (i : ℕ)
    (max_range : ℚ) (k : ℕ)
    (h : weakestAllyIdx bodies i max_range = some k) :
    ∃ actor o, bodies[i]? = some actor ∧ bodies[k]? = some o ∧
      EligAlly actor (max_range * max_range) o ∧
      ∀ (m : ℕ) (o2 : PhysicsBody), bodies[m]? = some o2 →
        EligAlly actor (max_range * max_range) o2 →
        o.hp / o.max_hp ≤ o2.hp / o2.max_hp := by
  unfold weakestAllyIdx at h
  cases ha : bodies[i]? with
  | none => rw [ha] at h; exact absurd h (by simp)
  | some actor =>
    rw [ha] at h
    obtain ⟨_, hB, hC, _⟩ :=
      weakestAllyGo_spec actor (max_range * max_range) bodies 0 (none, 11/10)
    rcases hC k h with ⟨hnone, _⟩ | ⟨m, o, hm, hkm, helig, hval⟩
    · exact absurd hnone (by simp)
    · refine ⟨actor, o, rfl, ?_, helig, ?_⟩
      · rw [hkm]
        simpa using hm
      · intro m2 o2 hm2 helig2
        rw [← hval]
        exact hB m2 o2 hm2 helig2

theorem weakestAllyIdx_none_spec (bodies : List PhysicsBody) (i : ℕ)
    (max_range : ℚ) (actor : PhysicsBody) (ha : bodies[i]? = some actor)
    (h : weakestAllyIdx bodies i max_range = none) :
    ∀ (m : ℕ) (o : PhysicsBody), bodies[m]? = some o →
      ¬ EligAlly actor (max_range * max_range) o := by
  unfold weakestAllyIdx at h
  rw [ha] at h
  obtain ⟨_, hB, _, hD⟩ :=
    weakestAllyGo_spec actor (max_range * max_range) bodies 0 (none, 11/10)
  intro m o hm helig
  obtain ⟨_, hval⟩ := hD h
  have h1 := hB m o hm helig
  rw [hval] at h1
  have hlt : o.hp / o.max_hp < 1 :=
    (div_lt_one helig.2.2.2.1).mpr helig.2.2.2.2
  dsimp only at h1
  linarith

theorem setCooldown_getElem?_other (bodies : List PhysicsBody) (idx k : ℕ)
    (v : ℚ) (hk : k ≠ idx) : (setCooldown bodies idx v)[k]? = bodies[k]? := by
  rcases setCooldown_cases bodies idx v with h | ⟨b2, _, h⟩ <;> rw [h]
  exact List.getElem?_set_ne hk.symm

theorem healAt_getElem?_other (bodies : List PhysicsBody) (idx k : ℕ)
    (amount : ℚ) (hk : k ≠ idx) : (healAt bodies idx amount)[k]? = bodies[k]? := by
  rcases healAt_cases bodies idx amount with h | ⟨tgt, _, h⟩ <;> rw [h]
  exact List.getElem?_set_ne hk.symm

/-! ## Invariant chain 2: a dead body is completely frozen -/

theorem processPair_frozen (sq : ℚ → ℚ) (rp : ℚ → ℚ → ℚ) (t : PhysicsTuning)
    (inv : List String) (prev : List (ℕ × ℕ)) (s : SolverState) (i j idx : ℕ)
    (c : PhysicsBody) (hc : s.bodies[idx]? = some c) (hdead : ¬ (0 < c.hp))
    (hi : i ≠ idx) :
    (processPair sq rp t inv prev s i j).bodies[idx]? = some c := by
  by_cases hj : j = idx
  · rw [processPair_dead_j sq rp t inv prev s i j c (hj ▸ hc) hdead]
    exact hc
  · rw [processPair_getElem?_other sq rp t inv prev s i j idx
      (Ne.symm hi) (Ne.symm hj)]
    exact hc

theorem processRow_frozen (sq : ℚ → ℚ) (rp : ℚ → ℚ → ℚ) (t : PhysicsTuning)
    (inv : List String) (prev : List (ℕ × ℕ)) (n : ℕ) (s : SolverState)
    (i2 idx : ℕ) (c : PhysicsBody) (hc : s.bodies[idx]? = some c)
    (hdead : ¬ (0 < c.hp)) :
    (processRow sq rp t inv prev n s i2).bodies[idx]? = some c := by
  by_cases hrow : i2 = idx
  · subst hrow
    rw [processRow_dead sq rp t inv prev n s i2 c hc hdead]
    exact hc
  · unfold processRow
    cases ha : s.bodies[i2]? with
    | none => exact hc
    | some a =>
      dsimp only
      split_ifs
      · exact foldl_preserve (P := fun s2 => s2.bodies[idx]? = some c)
          (fun s2 j hs2 =>
            processPair_frozen sq rp t inv prev s2 i2 j idx c hs2 hdead hrow)
          _ s hc
      · exact hc

theorem runSolver_frozen (sq : ℚ → ℚ) (rp : ℚ → ℚ → ℚ) (t : PhysicsTuning)
    (inv : List String) (prev : List (ℕ × ℕ)) (passes : ℕ) (s : SolverState)
    (idx : ℕ) (c : PhysicsBody) (hc : s.bodies[idx]? = some c)
    (hdead : ¬ (0 < c.hp)) :
    (runSolver sq rp t inv prev passes s).bodies[idx]? = some c := by
  induction passes generalizing s with
  | zero => exact hc
  | succ k ih =>
    exact ih _ (foldl_preserve (P := fun s2 => s2.bodies[idx]? = some c)
      (fun s2 i2 hs2 =>
        processRow_frozen sq rp t inv prev _ s2 i2 idx c hs2 hdead) _ s hc)

theorem roleActionAt_frozen (sq : ℚ → ℚ) (t : PhysicsTuning) (inv : List String)
    (bodies : List PhysicsBody) (k idx : ℕ) (c : PhysicsBody)
    (hc : bodies[idx]? = some c) (hdead : ¬ (0 < c.hp)) :
    (roleActionAt sq t inv bodies k)[idx]? = some c := by
  unfold roleActionAt
  cases ha : bodies[k]? with
  | none => exact hc
  | some actor =>
    dsimp only
    by_cases hk : k = idx
    · have hac : actor = c := by
        rw [hk, hc] at ha
        injection ha with ha2
        exact ha2.symm
      rw [if_pos (hac ▸ hdead)]
      exact hc
    · rcases em (0 < actor.hp) with hal | hal
      · rw [if_neg (not_not_intro hal)]
        rcases em (0 < actor.ability_cooldown) with hcd | hcd
        · rw [if_pos hcd]
          exact hc
        · rw [if_neg hcd]
          rcases em (actor.role = "ranged_dealer") with hrd | hrd
          · rw [if_pos hrd]
            cases hce : closestEnemyIdx bodies k t.ranged_attack_range with
            | none => exact hc
            | some tIdx =>
              dsimp only
              rw [setCooldown_getElem?_other _ _ _ _ (Ne.symm hk)]
              by_cases htI : tIdx = idx
              · rw [applyRangedKnockbackAt_dead sq t inv bodies k tIdx _ _ c
                  (htI ▸ hc) hdead]
                exact hc
              · rw [applyRangedKnockbackAt_getElem?_other sq t inv bodies k tIdx
                  idx _ _ (Ne.symm htI)]
                exact hc
          · rw [if_neg hrd]
            rcases em (actor.role = "healer") with hhl | hhl
            · rw [if_pos hhl]
              cases hwa : weakestAllyIdx bodies k (t.healer_range * (7/10)) with
              | none => exact hc
              | some tIdx =>
                rw [setCooldown_getElem?_other _ _ _ _ (Ne.symm hk)]
                obtain ⟨actor2, o, _, ho, helig, _⟩ :=
                  weakestAllyIdx_some_spec bodies k _ tIdx hwa
                have htI : idx ≠ tIdx := by
                  intro he
                  rw [← he, hc] at ho
                  injection ho with ho
                  exact hdead (ho ▸ helig.1)
                rw [healAt_getElem?_other _ _ _ _ htI]
                exact hc
            · rw [if_neg hhl]
              rcases em (actor.role = "ranged_healer") with hrh | hrh
              · rw [if_pos hrh]
                have hheal : (match weakestAllyIdx bodies k t.healer_range with
                    | none => (bodies, false)
                    | some hIdx =>
                      (healAt bodies hIdx (t.healer_amount * (11/10)), true) :
                      List PhysicsBody × Bool).1[idx]? = some c := by
                  cases hwa : weakestAllyIdx bodies k t.healer_range with
                  | none => exact hc
                  | some hIdx =>
                    dsimp only
                    obtain ⟨actor2, o, _, ho, helig, _⟩ :=
                      weakestAllyIdx_some_spec bodies k _ hIdx hwa
                    have htI : idx ≠ hIdx := by
                      intro he
                      rw [← he, hc] at ho
                      injection ho with ho
                      exact hdead (ho ▸ helig.1)
                    rw [healAt_getElem?_other _ _ _ _ htI]
                    exact hc
                have hpush : ∀ bodies2 : List PhysicsBody,
                    bodies2[idx]? = some c →
                    (match closestEnemyIdx bodies2 k
                        (t.ranged_attack_range * (9/10)) with
                      | none => (bodies2, false)
                      | some pIdx => (applyRangedKnockbackAt sq t inv bodies2 k
                          pIdx (t.ranged_knockback_force * (58/100)) 0, true) :
                      List PhysicsBody × Bool).1[idx]? = some c := by
                  intro bodies2 hc2
                  cases closestEnemyIdx bodies2 k
                      (t.ranged_attack_range * (9/10)) with
                  | none => exact hc2
                  | some pIdx =>
                    dsimp only
                    by_cases htI : pIdx = idx
                    · rw [applyRangedKnockbackAt_dead sq t inv bodies2 k pIdx
                        _ _ c (htI ▸ hc2) hdead]
                      exact hc2
                    · rw [applyRangedKnockbackAt_getElem?_other sq t inv bodies2
                        k pIdx idx _ _ (Ne.symm htI)]
                      exact hc2
                split_ifs
                · rw [setCooldown_getElem?_other _ _ _ _ (Ne.symm hk)]
                  exact hpush _ hheal
                · exact hpush _ hheal
              · rw [if_neg hrh]
                exact hc
      · rw [if_pos hal]
        exact hc

theorem applyRoleActions_frozen (sq : ℚ → ℚ) (t : PhysicsTuning)
    (inv : List String) (bodies : List PhysicsBody) (idx : ℕ) (c : PhysicsBody)
    (hc : bodies[idx]? = some c) (hdead : ¬ (0 < c.hp)) :
    (applyRoleActions sq t inv bodies)[idx]? = some c := by
  exact foldl_preserve (P := fun bs => bs[idx]? = some c)
    (fun bs k hbs => roleActionAt_frozen sq t inv bs k idx c hbs hdead) _ _ hc

theorem lt_length_of_getElem? {α : Type _} {l : List α} {n : ℕ} {a : α}
    (h : l[n]? = some a) : n < l.length := by
  by_contra hn
  rw [List.getElem?_eq_none (le_of_not_lt hn)] at h
  exact Option.noConfusion h

theorem processPair_ne (sq : ℚ → ℚ) (rp : ℚ → ℚ → ℚ) (t : PhysicsTuning)
    (inv : List String) (prev : List (ℕ × ℕ)) (s : SolverState) (i j : ℕ)
    (a b : PhysicsBody) (hi : s.bodies[i]? = some a) (hj : s.bodies[j]? = some b)
    (ht : a.team ≠ b.team) : i ≠ j := by
  intro he
  rw [he, hj] at hi
  injection hi with hi
  exact ht (hi ▸ rfl)

/-! ## Invariant chain 3: an invincible body never loses hp and reads
last_damage = 0 (threaded together with BodyInv for every body) -/

/-- Inside one tick, after the integrator pass: body idx belongs to an
invincible team, its hp never drops below h0 and its last_damage stays 0;
all bodies keep BodyInv. -/
def InvObs (inv : List String) (h0 : ℚ) (idx : ℕ)
    (bodies : List PhysicsBody) : Prop :=
  AllInv bodies ∧ ∃ c, bodies[idx]? = some c ∧
    isTeamInvincibleL inv c.team = true ∧ h0 ≤ c.hp ∧ c.last_damage = 0

theorem processPair_invObs (sq : ℚ → ℚ) (rp : ℚ → ℚ → ℚ) (t : PhysicsTuning)
    (inv : List String) (prev : List (ℕ × ℕ)) (s : SolverState) (i j : ℕ)
    (h0 : ℚ) (idx : ℕ) (hrp : RpNonneg rp) (ht : TuningBounds t)
    (hs : InvObs inv h0 idx s.bodies) :
    InvObs inv h0 idx (processPair sq rp t inv prev s i j).bodies := by
  obtain ⟨hall, c, hc, hteam, hh0, hld⟩ := hs
  have hall2 := processPair_inv sq rp t inv prev s i j hrp ht hall
  refine ⟨hall2, ?_⟩
  rcases processPair_cases sq rp t inv prev s i j with h | ⟨a, b, hi, hj, hb, htm, _, h⟩
  · rw [h]
    exact ⟨c, hc, hteam, hh0, hld⟩
  · have hij := processPair_ne sq rp t inv prev s i j a b hi hj htm
    rw [h]
    dsimp only
    by_cases hidx_i : idx = i
    · subst hidx_i
      have hac : a = c := by
        rw [hc] at hi
        injection hi with h9
        exact h9.symm
      subst hac
      have hlt : idx < s.bodies.length := lt_length_of_getElem? hc
      rw [List.getElem?_set_ne (Ne.symm hij), List.getElem?_set_eq_of_lt _ (by simpa using hlt)]
      refine ⟨_, rfl, ?_, ?_, ?_⟩
      · rw [(collidePair_a2_stats sq rp t inv prev s.impacts a b).1.2.1]
        exact hteam
      · rw [collidePair_a2_hp]
        simp only [hteam, if_true, ite_self]
        exact hh0
      · rw [collidePair_a2_last_damage]
        simp only [hteam, if_true, hld, ite_self]
    · by_cases hidx_j : idx = j
      · subst hidx_j
        have hbc : b = c := by
          rw [hc] at hj
          injection hj with h9
          exact h9.symm
        subst hbc
        have hlt : idx < s.bodies.length := lt_length_of_getElem? hc
        rw [List.getElem?_set_eq_of_lt _ (by simpa using hlt)]
        refine ⟨_, rfl, ?_, ?_, ?_⟩
        · rw [(collidePair_b2_stats sq rp t inv prev s.impacts a b).1.2.1]
          exact hteam
        · rw [collidePair_b2_hp]
          simp only [hteam, if_true, ite_self]
          exact hh0
        · rw [collidePair_b2_last_damage]
          simp only [hteam, if_true, hld, ite_self]
      · rw [List.getElem?_set_ne (Ne.symm hidx_j), List.getElem?_set_ne (Ne.symm hidx_i)]
        exact ⟨c, hc, hteam, hh0, hld⟩

theorem processRow_invObs (sq : ℚ → ℚ) (rp : ℚ → ℚ → ℚ) (t : PhysicsTuning)
    (inv : List String) (prev : List (ℕ × ℕ)) (n : ℕ) (s : SolverState) (i : ℕ)
    (h0 : ℚ) (idx : ℕ) (hrp : RpNonneg rp) (ht : TuningBounds t)
    (hs : InvObs inv h0 idx s.bodies) :
    InvObs inv h0 idx (processRow sq rp t inv prev n s i).bodies := by
  unfold processRow
  cases ha : s.bodies[i]? with
  | none => exact hs
  | some a =>
    dsimp only
    split_ifs
    · exact foldl_preserve (P := fun s2 => InvObs inv h0 idx s2.bodies)
        (fun s2 j h2 => processPair_invObs sq rp t inv prev s2 i j h0 idx hrp ht h2)
        _ s hs
    · exact hs

theorem runSolver_invObs (sq : ℚ → ℚ) (rp : ℚ → ℚ → ℚ) (t : PhysicsTuning)
    (inv : List String) (prev : List (ℕ × ℕ)) (passes : ℕ) (s : SolverState)
    (h0 : ℚ) (idx : ℕ) (hrp : RpNonneg rp) (ht : TuningBounds t)
    (hs : InvObs inv h0 idx s.bodies) :
    InvObs inv h0 idx (runSolver sq rp t inv prev passes s).bodies := by
  induction passes generalizing s with
  | zero => exact hs
  | succ k ih =>
    exact ih _ (foldl_preserve (P := fun s2 => InvObs inv h0 idx s2.bodies)
      (fun s2 i2 h2 => processRow_invObs sq rp t inv prev _ s2 i2 h0 idx hrp ht h2)
      _ s hs)

/-! ## Generic preservation through one role action -/

theorem roleActionAt_preserve (sq : ℚ → ℚ) (t : PhysicsTuning)
    (inv : List String) (P : List PhysicsBody → Prop)
    (hknock : ∀ bodies aIdx tIdx f d, P bodies →
      P (applyRangedKnockbackAt sq t inv bodies aIdx tIdx f d))
    (hheal : ∀ bodies idx am,
      (am = t.healer_amount * (8/10) ∨ am = t.healer_amount * (11/10)) →
      P bodies → P (healAt bodies idx am))
    (hcool : ∀ bodies idx v, P bodies → P (setCooldown bodies idx v))
    (bodies : List PhysicsBody) (k : ℕ) (hp : P bodies) :
    P (roleActionAt sq t inv bodies k) := by
  unfold roleActionAt
  cases bodies[k]? with
  | none => exact hp
  | some actor =>
    dsimp only
    split_ifs
    all_goals try exact hp
    · cases closestEnemyIdx bodies k t.ranged_attack_range with
      | none => exact hp
      | some tIdx => exact hcool _ _ _ (hknock _ _ _ _ _ hp)
    · cases weakestAllyIdx bodies k (t.healer_range * (7/10)) with
      | none => exact hp
      | some tIdx => exact hcool _ _ _ (hheal _ _ _ (Or.inl rfl) hp)
    · cases weakestAllyIdx bodies k t.healer_range with
      | none =>
        dsimp only
        cases closestEnemyIdx bodies k (t.ranged_attack_range * (9/10)) with
        | none => exact hcool _ _ _ hp
        | some pIdx => exact hcool _ _ _ (hknock _ _ _ _ _ hp)
      | some hIdx =>
        dsimp only
        cases closestEnemyIdx (healAt bodies hIdx (t.healer_amount * (11/10))) k
            (t.ranged_attack_range * (9/10)) with
        | none => exact hcool _ _ _ (hheal _ _ _ (Or.inr rfl) hp)
        | some pIdx =>
          exact hcool _ _ _ (hknock _ _ _ _ _ (hheal _ _ _ (Or.inr rfl) hp))
    · cases weakestAllyIdx bodies k t.healer_range with
      | none =>
        dsimp only
        cases closestEnemyIdx bodies k (t.ranged_attack_range * (9/10)) with
        | none => exact hp
        | some pIdx => exact hknock _ _ _ _ _ hp
      | some hIdx =>
        dsimp only
        cases closestEnemyIdx (healAt bodies hIdx (t.healer_amount * (11/10))) k
            (t.ranged_attack_range * (9/10)) with
        | none => exact hheal _ _ _ (Or.inr rfl) hp
        | some pIdx => exact hknock _ _ _ _ _ (hheal _ _ _ (Or.inr rfl) hp)

theorem applyRoleActions_preserve (sq : ℚ → ℚ) (t : PhysicsTuning)
    (inv : List String) (P : List PhysicsBody → Prop)
    (hknock : ∀ bodies aIdx tIdx f d, P bodies →
      P (applyRangedKnockbackAt sq t inv bodies aIdx tIdx f d))
    (hheal : ∀ bodies idx am,
      (am = t.healer_amount * (8/10) ∨ am = t.healer_amount * (11/10)) →
      P bodies → P (healAt bodies idx am))
    (hcool : ∀ bodies idx v, P bodies → P (setCooldown bodies idx v))
    (bodies : List PhysicsBody) (hp : P bodies) :
    P (applyRoleActions sq t inv bodies) :=
  foldl_preserve
    (fun bs k h2 => roleActionAt_preserve sq t inv P hknock hheal hcool bs k h2)
    _ _ hp

theorem TB_healer_amount {t : PhysicsTuning} (h : TuningBounds t) :
    0 ≤ t.healer_amount := by
  obtain ⟨_, _, _, _, _, _, _, _, _, _, _, _, _, _, _, _, _, _, _, _, _, _, _,
    _, _, _, _, _, _, _, _, h32⟩ := h
  exact h32

/-! ## Closure of AllInv under the three ability mutations -/

theorem setCooldown_allInv (bodies : List PhysicsBody) (idx : ℕ) (v : ℚ)
    (h : AllInv bodies) : AllInv (setCooldown bodies idx v) := by
  rcases setCooldown_cases bodies idx v with he | ⟨b2, hb2, he⟩
  · rw [he]
    exact h
  · rw [he]
    intro c hc
    rcases List.mem_or_eq_of_mem_set hc with hc2 | hc2
    · exact h c hc2
    · subst hc2
      exact h b2 (List.getElem?_mem hb2)

theorem healAt_allInv (bodies : List PhysicsBody) (idx : ℕ) (am : ℚ)
    (ham : 0 ≤ am) (h : AllInv bodies) : AllInv (healAt bodies idx am) := by
  rcases healAt_cases bodies idx am with he | ⟨tgt, htgt, he⟩
  · rw [he]
    exact h
  · rw [he]
    intro c hc
    rcases List.mem_or_eq_of_mem_set hc with hc2 | hc2
    · exact h c hc2
    · subst hc2
      obtain ⟨h1, h2, h3, h4, h5, h6⟩ := h tgt (List.getElem?_mem htgt)
      exact ⟨le_min h6.le (by linarith), min_le_left _ _, h3, h4, h5, h6⟩

theorem knockback_allInv (sq : ℚ → ℚ) (t : PhysicsTuning) (inv : List String)
    (bodies : List PhysicsBody) (aIdx tIdx : ℕ) (f d : ℚ)
    (h : AllInv bodies) :
    AllInv (applyRangedKnockbackAt sq t inv bodies aIdx tIdx f d) := by
  rcases applyRangedKnockbackAt_cases sq t inv bodies aIdx tIdx f d with
    he | ⟨actor, target, t2, _, htgt, _, he, hst, _, hhp, _⟩
  · rw [he]
    exact h
  · rw [he]
    intro c hc
    rcases List.mem_or_eq_of_mem_set hc with hc2 | hc2
    · exact h c hc2
    · subst hc2
      obtain ⟨h1, h2, h3, h4, h5, h6⟩ := h target (List.getElem?_mem htgt)
      refine sameStats_bodyInv hst ?_ ?_ ⟨h1, h2, h3, h4, h5, h6⟩
      · rw [hhp]
        split_ifs
        · exact le_max_left 0 _
        · exact h1
      · rw [hhp]
        split_ifs with h7
        · have hsd : 0 ≤ d * max (6/10) actor.power :=
            mul_nonneg h7.1.le (le_trans (by norm_num) (le_max_left _ _))
          exact max_le (by linarith) (by linarith)
        · exact h2

theorem applyRoleActions_allInv (sq : ℚ → ℚ) (t : PhysicsTuning)
    (inv : List String) (bodies : List PhysicsBody) (ht : TuningBounds t)
    (h : AllInv bodies) : AllInv (applyRoleActions sq t inv bodies) := by
  refine applyRoleActions_preserve sq t inv AllInv ?_ ?_ ?_ bodies h
  · exact fun bs a tg f d h2 => knockback_allInv sq t inv bs a tg f d h2
  · intro bs idx am ham h2
    have ham2 : 0 ≤ am := by
      have hha := TB_healer_amount ht
      rcases ham with h3 | h3 <;> subst h3 <;> nlinarith
    exact healAt_allInv bs idx am ham2 h2
  · exact fun bs idx v h2 => setCooldown_allInv bs idx v h2

/-! ## Closure of the invincible-body observation under ability mutations -/

theorem setCooldown_invObs (inv : List String) (h0 : ℚ) (idx : ℕ)
    (bodies : List PhysicsBody) (idx2 : ℕ) (v : ℚ)
    (h : InvObs inv h0 idx bodies) : InvObs inv h0 idx (setCooldown bodies idx2 v) := by
  obtain ⟨hall, c, hc, hteam, hh0, hld⟩ := h
  refine ⟨setCooldown_allInv bodies idx2 v hall, ?_⟩
  rcases setCooldown_cases bodies idx2 v with he | ⟨b2, hb2, he⟩
  · rw [he]
    exact ⟨c, hc, hteam, hh0, hld⟩
  · rw [he]
    by_cases hx : idx = idx2
    · subst hx
      rw [hc] at hb2
      injection hb2 with hb2
      subst hb2
      rw [List.getElem?_set_eq_of_lt _ (lt_length_of_getElem? hc)]
      exact ⟨_, rfl, hteam, hh0, hld⟩
    · rw [List.getElem?_set_ne (Ne.symm hx)]
      exact ⟨c, hc, hteam, hh0, hld⟩

theorem healAt_invObs (inv : List String) (h0 : ℚ) (idx : ℕ)
    (bodies : List PhysicsBody) (idx2 : ℕ) (am : ℚ) (ham : 0 ≤ am)
    (h : InvObs inv h0 idx bodies) : InvObs inv h0 idx (healAt bodies idx2 am) := by
  obtain ⟨hall, c, hc, hteam, hh0, hld⟩ := h
  refine ⟨healAt_allInv bodies idx2 am ham hall, ?_⟩
  rcases healAt_cases bodies idx2 am with he | ⟨tgt, htgt, he⟩
  · rw [he]
    exact ⟨c, hc, hteam, hh0, hld⟩
  · rw [he]
    by_cases hx : idx = idx2
    · subst hx
      rw [hc] at htgt
      injection htgt with htgt
      subst htgt
      rw [List.getElem?_set_eq_of_lt _ (lt_length_of_getElem? hc)]
      refine ⟨_, rfl, hteam, ?_, hld⟩
      have hinv := hall c (List.getElem?_mem hc)
      exact le_trans hh0 (le_min hinv.2.1 (by linarith))
    · rw [List.getElem?_set_ne (Ne.symm hx)]
      exact ⟨c, hc, hteam, hh0, hld⟩

theorem knockback_invObs (sq : ℚ → ℚ) (t : PhysicsTuning) (inv : List String)
    (h0 : ℚ) (idx : ℕ) (bodies : List PhysicsBody) (aIdx tIdx : ℕ) (f d : ℚ)
    (h : InvObs inv h0 idx bodies) :
    InvObs inv h0 idx (applyRangedKnockbackAt sq t inv bodies aIdx tIdx f d) := by
  obtain ⟨hall, c, hc, hteam, hh0, hld⟩ := h
  refine ⟨knockback_allInv sq t inv bodies aIdx tIdx f d hall, ?_⟩
  rcases applyRangedKnockbackAt_cases sq t inv bodies aIdx tIdx f d with
    he | ⟨actor, target, t2, _, htgt, _, he, hst, _, hhp, hldam⟩
  · rw [he]
    exact ⟨c, hc, hteam, hh0, hld⟩
  · rw [he]
    by_cases hx : idx = tIdx
    · subst hx
      rw [hc] at htgt
      injection htgt with htgt
      subst htgt
      rw [List.getElem?_set_eq_of_lt _ (lt_length_of_getElem? hc)]
      refine ⟨t2, rfl, ?_, ?_, ?_⟩
      · rw [hst.2.1]
        exact hteam
      · rw [hhp, if_neg (fun hcontra => hcontra.2 (by simp [hteam]))]
        exact hh0
      · rw [hldam, if_neg (fun hcontra => hcontra.2 (by simp [hteam]))]
        exact hld
    · rw [List.getElem?_set_ne (Ne.symm hx)]
      exact ⟨c, hc, hteam, hh0, hld⟩

theorem applyRoleActions_invObs (sq : ℚ → ℚ) (t : PhysicsTuning)
    (inv : List String) (h0 : ℚ) (idx : ℕ) (bodies : List PhysicsBody)
    (ht : TuningBounds t) (h : InvObs inv h0 idx bodies) :
    InvObs inv h0 idx (applyRoleActions sq t inv bodies) := by
  refine applyRoleActions_preserve sq t inv (InvObs inv h0 idx) ?_ ?_ ?_ bodies h
  · exact fun bs a tg f d h2 => knockback_invObs sq t inv h0 idx bs a tg f d h2
  · intro bs idx2 am ham h2
    have ham2 : 0 ≤ am := by
      have hha := TB_healer_amount ht
      rcases ham with h3 | h3 <;> subst h3 <;> nlinarith
    exact healAt_invObs inv h0 idx bs idx2 am ham2 h2
  · exact fun bs idx2 v h2 => setCooldown_invObs inv h0 idx bs idx2 v h2

/-! ## Integrator field lemmas and step-level assembly -/

theorem integrateBody_fields (t : PhysicsTuning) (wid hgt dt damping : ℚ)
    (b : PhysicsBody) :
    sameStats b (integrateBody t wid hgt dt damping b) ∧
    (integrateBody t wid hgt dt damping b).hp = b.hp ∧
    (integrateBody t wid hgt dt damping b).last_damage = 0 := by
  by_cases hd : 0 < b.hp
  · obtain ⟨x, y, vx, vy, st, cd, h⟩ :=
      integrateBody_alive_shape t wid hgt dt damping b hd
    rw [h]
    exact ⟨⟨rfl, rfl, rfl, rfl, rfl, rfl, rfl, rfl, rfl⟩, rfl, rfl⟩
  · rw [integrateBody_dead t wid hgt dt damping b hd]
    exact ⟨⟨rfl, rfl, rfl, rfl, rfl, rfl, rfl, rfl, rfl⟩, rfl, rfl⟩

theorem integrateBody_inv (t : PhysicsTuning) (wid hgt dt damping : ℚ)
    (b : PhysicsBody) (h : BodyInv b) :
    BodyInv (integrateBody t wid hgt dt damping b) := by
  obtain ⟨hs, hhp, _⟩ := integrateBody_fields t wid hgt dt damping b
  exact sameStats_bodyInv hs (hhp ▸ h.1) (hhp ▸ h.2.1) h

/-- The whole of one successful step preserves the per-body invariant. -/
theorem stepGo_allInv (sq : ℚ → ℚ) (rp : ℚ → ℚ → ℚ) (w : PhysicsWorld) (dt : ℚ)
    (hrp : RpNonneg rp) (ht : TuningBounds w.tuning) (hs : AllInv w.bodies) :
    AllInv (stepGo sq rp w dt).world.bodies := by
  unfold stepGo
  dsimp only
  refine applyRoleActions_allInv _ _ _ _ ht ?_
  refine runSolver_inv _ _ _ _ _ _ _ hrp ht ?_
  intro b hb
  obtain ⟨a, ha, rfl⟩ := List.mem_map.mp hb
  exact integrateBody_inv _ _ _ _ _ a (hs a ha)

/-- One successful step freezes a dead body completely: position, hp and
team are untouched, velocity, timers and last_damage are forced to zero. -/
theorem stepGo_dead_frozen (sq : ℚ → ℚ) (rp : ℚ → ℚ → ℚ) (w : PhysicsWorld)
    (dt : ℚ) (idx : ℕ) (c : PhysicsBody) (hc : w.bodies[idx]? = some c)
    (hdead : ¬ (0 < c.hp)) :
    (stepGo sq rp w dt).world.bodies[idx]? =
      some { c with last_damage := 0, vx := 0, vy := 0, stagger_timer := 0,
                    ability_cooldown := 0 } := by
  unfold stepGo
  dsimp only
  have h1 : (w.bodies.map (integrateBody w.tuning w.width w.height dt
      (max 0 (1 - w.tuning.linear_damping * dt))))[idx]? =
      some { c with last_damage := 0, vx := 0, vy := 0, stagger_timer := 0,
                    ability_cooldown := 0 } := by
    rw [List.getElem?_map, hc]
    rw [Option.map_some']
    rw [integrateBody_dead _ _ _ _ _ c hdead]
  have h2 := runSolver_frozen sq rp w.tuning w.invincible_teams
    w.active_contacts w.tuning.solver_passes
    { bodies := w.bodies.map (integrateBody w.tuning w.width w.height dt
        (max 0 (1 - w.tuning.linear_damping * dt))), contacts := [],
      impacts := [], collisions := 0, fireLog := [] } idx _ h1 hdead
  exact applyRoleActions_frozen sq w.tuning w.invincible_teams _ idx _ h2 hdead

/-- One successful step never lowers the hp of a body on an invincible
team, and leaves its last_damage at zero. -/
theorem stepGo_invincible (sq : ℚ → ℚ) (rp : ℚ → ℚ → ℚ) (w : PhysicsWorld)
    (dt : ℚ) (idx : ℕ) (c : PhysicsBody) (hc : w.bodies[idx]? = some c)
    (hteam : isTeamInvincibleL w.invincible_teams c.team = true)
    (hrp : RpNonneg rp) (ht : TuningBounds w.tuning) (hall : AllInv w.bodies) :
    ∃ c2, (stepGo sq rp w dt).world.bodies[idx]? = some c2 ∧
      c.hp ≤ c2.hp ∧ c2.last_damage = 0 ∧
      isTeamInvincibleL w.invincible_teams c2.team = true := by
  unfold stepGo
  dsimp only
  set bodies1 := w.bodies.map (integrateBody w.tuning w.width w.height dt
    (max 0 (1 - w.tuning.linear_damping * dt))) with hb1
  have hobs : InvObs w.invincible_teams c.hp idx bodies1 := by
    constructor
    · intro b hb
      obtain ⟨a, ha, rfl⟩ := List.mem_map.mp hb
      exact integrateBody_inv _ _ _ _ _ a (hall a ha)
    · obtain ⟨hst, hhp, hld⟩ := integrateBody_fields w.tuning w.width w.height
        dt (max 0 (1 - w.tuning.linear_damping * dt)) c
      refine ⟨_, ?_, ?_, le_of_eq hhp.symm, hld⟩
      · rw [hb1, List.getElem?_map, hc, Option.map_some']
      · rw [hst.2.1]
        exact hteam
  have h2 := runSolver_invObs sq rp w.tuning w.invincible_teams
    w.active_contacts w.tuning.solver_passes
    { bodies := bodies1, contacts := [], impacts := [], collisions := 0,
      fireLog := [] } c.hp idx hrp ht hobs
  have h3 := applyRoleActions_invObs sq w.tuning w.invincible_teams c.hp idx _
    ht h2
  obtain ⟨_, c2, hc2, hteam2, hh0, hld⟩ := h3
  exact ⟨c2, hc2, hh0, hld, hteam2⟩

/-! ## World-level invariant under every public operation -/

def WorldInv (w : PhysicsWorld) : Prop :=
  AllInv w.bodies ∧ w.tuning.validate = .ok ()

theorem addImpulseGo_inv (kicks : ℕ → ℚ × ℚ) :
    ∀ (L : List PhysicsBody) (k : ℕ), AllInv L → AllInv (addImpulseGo kicks L k) := by
  intro L
  induction L with
  | nil => intro k h; exact h
  | cons b rest ih =>
    intro k h
    have hb := h b (List.mem_cons_self b rest)
    have hrest : AllInv rest := fun c hc => h c (List.mem_cons_of_mem _ hc)
    unfold addImpulseGo
    split_ifs with ha
    · intro c hc
      rcases List.mem_cons.mp hc with hc2 | hc2
      · subst hc2
        exact ⟨hb.1, hb.2.1, hb.2.2.1, hb.2.2.2.1, hb.2.2.2.2.1, hb.2.2.2.2.2⟩
      · exact ih (k + 1) hrest c hc2
    · intro c hc
      rcases List.mem_cons.mp hc with hc2 | hc2
      · subst hc2
        exact hb
      · exact ih k hrest c hc2

theorem mkPhysicsWorld_ok (width height : ℚ) (bodies : List PhysicsBody)
    (tuning : PhysicsTuning) (teams : List String) (w : PhysicsWorld)
    (h : mkPhysicsWorld width height bodies tuning teams = .ok w) :
    w.bodies = bodies ∧ w.tuning = tuning ∧ tuning.validate = .ok () := by
  unfold mkPhysicsWorld at h
  by_cases h1 : width ≤ 0 ∨ height ≤ 0
  · rw [if_pos h1] at h
    exact Except.noConfusion h
  · rw [if_neg h1] at h
    cases hv : tuning.validate with
    | error e =>
      rw [hv] at h
      exact Except.noConfusion h
    | ok u =>
      rw [hv] at h
      injection h with h
      subst h
      exact ⟨rfl, rfl, rfl⟩

theorem applyOp_worldInv (sq : ℚ → ℚ) (rp : ℚ → ℚ → ℚ) (w : PhysicsWorld)
    (op : WorldOp) (hrp : RpNonneg rp) (h : WorldInv w) :
    WorldInv (applyOp sq rp w op) := by
  obtain ⟨hall, hval⟩ := h
  cases op with
  | step dt =>
    by_cases hdt : dt ≤ 0
    · have he : stepE sq rp w dt = .error "dt must be > 0" := by
        unfold stepE
        rw [if_pos hdt]
      unfold applyOp
      dsimp only
      rw [he]
      exact ⟨hall, hval⟩
    · have he : stepE sq rp w dt = .ok (stepGo sq rp w dt).world := by
        unfold stepE
        rw [if_neg hdt]
      unfold applyOp
      dsimp only
      rw [he]
      exact ⟨stepGo_allInv sq rp w dt hrp (validate_ok_bounds _ hval) hall, hval⟩
  | addImpulse m kicks =>
    by_cases hm : m ≤ 0
    · have he : addRandomImpulse w m kicks = .error "magnitude must be > 0" := by
        unfold addRandomImpulse
        rw [if_pos hm]
      unfold applyOp
      dsimp only
      rw [he]
      exact ⟨hall, hval⟩
    · have he : addRandomImpulse w m kicks =
          .ok { w with bodies := addImpulseGo kicks w.bodies 0 } := by
        unfold addRandomImpulse
        rw [if_neg hm]
      unfold applyOp
      dsimp only
      rw [he]
      exact ⟨addImpulseGo_inv kicks w.bodies 0 hall, hval⟩
  | setTuning t2 =>
    cases hv : t2.validate with
    | error e =>
      have he : setTuningE w t2 = .error e := by
        unfold setTuningE
        rw [hv]
      unfold applyOp
      dsimp only
      rw [he]
      exact ⟨hall, hval⟩
    | ok u =>
      have he : setTuningE w t2 = .ok { w with tuning := t2 } := by
        unfold setTuningE
        rw [hv]
      unfold applyOp
      dsimp only
      rw [he]
      exact ⟨hall, by dsimp only; rw [hv]⟩
  | setInvincible teams =>
    unfold applyOp setInvincibleTeams
    exact ⟨hall, hval⟩

theorem runOps_worldInv (sq : ℚ → ℚ) (rp : ℚ → ℚ → ℚ) (hrp : RpNonneg rp) :
    ∀ (ops : List WorldOp) (w : PhysicsWorld), WorldInv w →
      WorldInv (runOps sq rp w ops) := by
  intro ops
  induction ops with
  | nil => intro w h; exact h
  | cons op rest ih =>
    intro w h
    exact ih _ (applyOp_worldInv sq rp w op hrp h)

/-! ## First-contact gating of the Impact Effect Model -/

theorem mem_addPair {p q : ℕ × ℕ} {l : List (ℕ × ℕ)} :
    p ∈ addPair q l ↔ p = q ∨ p ∈ l := by
  unfold addPair
  split_ifs with h
  · constructor
    · exact fun h2 => Or.inr h2
    · rintro (rfl | h2)
      · exact h
      · exact h2
  · exact List.mem_cons

/-- The bookkeeping invariant of the firing log within one tick. -/
def FireInv (prev : List (ℕ × ℕ)) (s : SolverState) : Prop :=
  s.fireLog.Nodup ∧ (∀ p ∈ s.fireLog, p ∈ s.impacts) ∧
  (∀ p ∈ s.fireLog, p ∉ prev) ∧ (∀ p ∈ s.fireLog, p ∈ s.contacts)

theorem processPair_fireInv (sq : ℚ → ℚ) (rp : ℚ → ℚ → ℚ) (t : PhysicsTuning)
    (inv : List String) (prev : List (ℕ × ℕ)) (s : SolverState) (i j : ℕ)
    (h : FireInv prev s) : FireInv prev (processPair sq rp t inv prev s i j) := by
  obtain ⟨hnd, him, hpr, hct⟩ := h
  rcases processPair_cases sq rp t inv prev s i j with he | ⟨a, b, _, _, _, _, _, he⟩
  · rw [he]
    exact ⟨hnd, him, hpr, hct⟩
  · rw [he]
    by_cases hf : (collidePair sq rp t inv prev s.impacts a b).fired = true
    · have hcond := (collidePair_fired_iff sq rp t inv prev s.impacts a b).mp hf
      simp only [hf, if_true]
      refine ⟨?_, ?_, ?_, ?_⟩
      · exact List.Nodup.cons (fun hmem => hcond.2.1 (him _ hmem)) hnd
      · intro p hp
        rcases List.mem_cons.mp hp with rfl | hp2
        · exact mem_addPair.mpr (Or.inl rfl)
        · exact mem_addPair.mpr (Or.inr (him p hp2))
      · intro p hp
        rcases List.mem_cons.mp hp with rfl | hp2
        · exact hcond.1
        · exact hpr p hp2
      · intro p hp
        rcases List.mem_cons.mp hp with rfl | hp2
        · exact mem_addPair.mpr (Or.inl rfl)
        · exact mem_addPair.mpr (Or.inr (hct p hp2))
    · simp only [hf, if_false]
      refine ⟨hnd, him, hpr, ?_⟩
      intro p hp
      exact mem_addPair.mpr (Or.inr (hct p hp))

theorem processRow_fireInv (sq : ℚ → ℚ) (rp : ℚ → ℚ → ℚ) (t : PhysicsTuning)
    (inv : List String) (prev : List (ℕ × ℕ)) (n : ℕ) (s : SolverState) (i : ℕ)
    (h : FireInv prev s) : FireInv prev (processRow sq rp t inv prev n s i) := by
  unfold processRow
  cases s.bodies[i]? with
  | none => exact h
  | some a =>
    dsimp only
    split_ifs
    · exact foldl_preserve
        (fun s2 j h2 => processPair_fireInv sq rp t inv prev s2 i j h2) _ s h
    · exact h

theorem runSolver_fireInv (sq : ℚ → ℚ) (rp : ℚ → ℚ → ℚ) (t : PhysicsTuning)
    (inv : List String) (prev : List (ℕ × ℕ)) (passes : ℕ) (s : SolverState)
    (h : FireInv prev s) : FireInv prev (runSolver sq rp t inv prev passes s) := by
  induction passes generalizing s with
  | zero => exact h
  | succ k ih =>
    exact ih _ (foldl_preserve
      (fun s2 i2 h2 => processRow_fireInv sq rp t inv prev _ s2 i2 h2) _ s h)

theorem stepGo_fireInv (sq : ℚ → ℚ) (rp : ℚ → ℚ → ℚ) (w : PhysicsWorld)
    (dt : ℚ) :
    (stepGo sq rp w dt).fires.Nodup ∧
    (∀ p ∈ (stepGo sq rp w dt).fires, p ∉ w.active_contacts) ∧
    (∀ p ∈ (stepGo sq rp w dt).fires,
      p ∈ (stepGo sq rp w dt).world.active_contacts) := by
  unfold stepGo
  dsimp only
  have h := runSolver_fireInv sq rp w.tuning w.invincible_teams w.active_contacts
    w.tuning.solver_passes
    { bodies := w.bodies.map (integrateBody w.tuning w.width w.height dt
        (max 0 (1 - w.tuning.linear_damping * dt))), contacts := [],
      impacts := [], collisions := 0, fireLog := [] }
    ⟨List.nodup_nil, by simp, by simp, by simp⟩
  exact ⟨h.1, h.2.2.1, h.2.2.2⟩

/-- The firing of one examined pair, characterized exactly: the Impact
Effect Model runs for a pair precisely when the second body is alive, the
teams differ, the circles overlap, the pair is in neither the previous
tick's contact set nor the impact set already fired this tick, and the
bodies are approaching along the contact normal. -/
theorem processPair_fires_iff (sq : ℚ → ℚ) (rp : ℚ → ℚ → ℚ) (t : PhysicsTuning)
    (inv : List String) (prev : List (ℕ × ℕ)) (s : SolverState) (i j : ℕ)
    (a b : PhysicsBody) (hi : s.bodies[i]? = some a)
    (hj : s.bodies[j]? = some b) :
    (processPair sq rp t inv prev s i j).fireLog = pairKey a b :: s.fireLog ∨
      (processPair sq rp t inv prev s i j).fireLog = s.fireLog := by
  rcases processPair_cases sq rp t inv prev s i j with he | ⟨a2, b2, hi2, hj2, _, _, _, he⟩
  · right
    rw [he]
  · rw [hi] at hi2
    rw [hj] at hj2
    injection hi2 with hi2
    injection hj2 with hj2
    subst hi2
    subst hj2
    rw [he]
    dsimp only
    by_cases hf : (collidePair sq rp t inv prev s.impacts a b).fired = true
    · left
      rw [if_pos hf]
    · right
      rw [if_neg hf]

theorem processPair_fires_pos (sq : ℚ → ℚ) (rp : ℚ → ℚ → ℚ) (t : PhysicsTuning)
    (inv : List String) (prev : List (ℕ × ℕ)) (s : SolverState) (i j : ℕ)
    (a b : PhysicsBody) (hi : s.bodies[i]? = some a)
    (hj : s.bodies[j]? = some b) (hb : 0 < b.hp) (hteam : a.team ≠ b.team)
    (ho : Overlap a b) (hfc : FireCond sq prev s.impacts a b) :
    (processPair sq rp t inv prev s i j).fireLog = pairKey a b :: s.fireLog := by
  unfold processPair
  rw [hi, hj]
  dsimp only
  rw [if_neg (not_not_intro hb), if_neg hteam, if_neg (not_le.mpr ho)]
  dsimp only
  rw [if_pos ((collidePair_fired_iff sq rp t inv prev s.impacts a b).mpr hfc)]

/-! ## Healer-branch lemmas -/

theorem healAt_length (bodies : List PhysicsBody) (idx : ℕ) (am : ℚ) :
    (healAt bodies idx am).length = bodies.length := by
  rcases healAt_cases bodies idx am with he | ⟨tgt, _, he⟩ <;> rw [he] <;> simp

theorem setCooldown_hp (bodies : List PhysicsBody) (idx : ℕ) (v : ℚ) (k : ℕ) :
    ((setCooldown bodies idx v)[k]?).map PhysicsBody.hp =
      (bodies[k]?).map PhysicsBody.hp := by
  rcases setCooldown_cases bodies idx v with he | ⟨b2, hb2, he⟩
  · rw [he]
  · rw [he]
    by_cases hk : k = idx
    · subst hk
      rw [List.getElem?_set_eq_of_lt _ (lt_length_of_getElem? hb2), hb2]
      rfl
    · rw [List.getElem?_set_ne (Ne.symm hk)]

theorem setCooldown_cd_self (bodies : List PhysicsBody) (idx : ℕ) (v : ℚ)
    (b2 : PhysicsBody) (hb2 : bodies[idx]? = some b2) :
    ((setCooldown bodies idx v)[idx]?).map PhysicsBody.ability_cooldown =
      some v := by
  unfold setCooldown
  rw [hb2]
  dsimp only
  rw [List.getElem?_set_eq_of_lt _ (lt_length_of_getElem? hb2)]
  rfl

theorem healAt_self (bodies : List PhysicsBody) (idx : ℕ) (am : ℚ)
    (o : PhysicsBody) (ho : bodies[idx]? = some o) :
    (healAt bodies idx am)[idx]? =
      some { o with hp := min o.max_hp (o.hp + am) } := by
  unfold healAt
  rw [ho]
  dsimp only
  rw [List.getElem?_set_eq_of_lt _ (lt_length_of_getElem? ho)]

theorem roleActionAt_healer (sq : ℚ → ℚ) (t : PhysicsTuning) (inv : List String)
    (bodies : List PhysicsBody) (i : ℕ) (actor : PhysicsBody)
    (ha : bodies[i]? = some actor) (hrole : actor.role = "healer")
    (halive : 0 < actor.hp) (hcd : ¬ (0 < actor.ability_cooldown)) :
    roleActionAt sq t inv bodies i =
      match weakestAllyIdx bodies i (t.healer_range * (7/10)) with
      | none => bodies
      | some targetIdx =>
        setCooldown (healAt bodies targetIdx (t.healer_amount * (8/10))) i
          t.healer_cooldown := by
  unfold roleActionAt
  rw [ha]
  dsimp only
  rw [if_neg (not_not_intro halive), if_neg hcd,
    if_neg (show ¬ (actor.role = "ranged_dealer") by rw [hrole]; decide),
    if_pos hrole]

theorem healer_action_spec (sq : ℚ → ℚ) (t : PhysicsTuning) (inv : List String)
    (bodies : List PhysicsBody) (i : ℕ) (actor : PhysicsBody)
    (ha : bodies[i]? = some actor) (hrole : actor.role = "healer")
    (halive : 0 < actor.hp) (hcd : ¬ (0 < actor.ability_cooldown)) :
    (∀ k, weakestAllyIdx bodies i (t.healer_range * (7/10)) = some k →
      ∃ o, bodies[k]? = some o ∧
        EligAlly actor ((t.healer_range * (7/10)) * (t.healer_range * (7/10))) o ∧
        (∀ (m : ℕ) (o2 : PhysicsBody), bodies[m]? = some o2 →
          EligAlly actor ((t.healer_range * (7/10)) * (t.healer_range * (7/10))) o2 →
          o.hp / o.max_hp ≤ o2.hp / o2.max_hp) ∧
        ((roleActionAt sq t inv bodies i)[k]?).map PhysicsBody.hp =
          some (min o.max_hp (o.hp + t.healer_amount * (8/10))) ∧
        ((roleActionAt sq t inv bodies i)[i]?).map PhysicsBody.ability_cooldown =
          some t.healer_cooldown) ∧
    (weakestAllyIdx bodies i (t.healer_range * (7/10)) = none →
      roleActionAt sq t inv bodies i = bodies ∧
      ∀ (m : ℕ) (o : PhysicsBody), bodies[m]? = some o →
        ¬ EligAlly actor ((t.healer_range * (7/10)) * (t.healer_range * (7/10))) o) := by
  have hred := roleActionAt_healer sq t inv bodies i actor ha hrole halive hcd
  constructor
  · intro k hwa
    obtain ⟨actor2, o, ha2, ho, helig, hmin⟩ :=
      weakestAllyIdx_some_spec bodies i _ k hwa
    have hact : actor2 = actor := by
      rw [ha] at ha2
      injection ha2 with h9
      exact h9.symm
    subst hact
    refine ⟨o, ho, helig, hmin, ?_, ?_⟩
    · rw [hred, hwa]
      dsimp only
      rw [setCooldown_hp, healAt_self bodies k _ o ho]
      rfl
    · rw [hred, hwa]
      dsimp only
      have hlen : i < (healAt bodies k (t.healer_amount * (8/10))).length := by
        rw [healAt_length]
        exact lt_length_of_getElem? ha
      cases hx : (healAt bodies k (t.healer_amount * (8/10)))[i]? with
      | none =>
        exact absurd hx (by
          rw [List.getElem?_eq_getElem hlen]
          exact fun hcontra => Option.noConfusion hcontra)
      | some b2 => exact setCooldown_cd_self _ i _ b2 hx
  · intro hwa
    constructor
    · rw [hred, hwa]
    · exact weakestAllyIdx_none_spec bodies i _ actor ha hwa

theorem healer_self_heal_spec (sq : ℚ → ℚ) (t : PhysicsTuning)
    (inv : List String) (bodies : List PhysicsBody) (i : ℕ)
    (actor : PhysicsBody) (ha : bodies[i]? = some actor)
    (hrole : actor.role = "healer") (halive : 0 < actor.hp)
    (hcd : ¬ (0 < actor.ability_cooldown)) (hdam : actor.hp < actor.max_hp)
    (hmax : 0 < actor.max_hp)
    (hothers : ∀ j, j ≠ i → ∀ (o : PhysicsBody), bodies[j]? = some o →
      ¬ EligAlly actor ((t.healer_range * (7/10)) * (t.healer_range * (7/10))) o) :
    weakestAllyIdx bodies i (t.healer_range * (7/10)) = some i ∧
    ((roleActionAt sq t inv bodies i)[i]?).map PhysicsBody.hp =
      some (min actor.max_hp (actor.hp + t.healer_amount * (8/10))) ∧
    ((roleActionAt sq t inv bodies i)[i]?).map PhysicsBody.ability_cooldown =
      some t.healer_cooldown := by
  have helig : EligAlly actor
      ((t.healer_range * (7/10)) * (t.healer_range * (7/10))) actor := by
    refine ⟨halive, rfl, ?_, hmax, hdam⟩
    have h1 : actor.x - actor.x = 0 := by ring
    have h2 : actor.y - actor.y = 0 := by ring
    rw [h1, h2]
    simpa using mul_self_nonneg (t.healer_range * (7/10))
  obtain ⟨hspecA, hspecB⟩ :=
    healer_action_spec sq t inv bodies i actor ha hrole halive hcd
  cases hwa : weakestAllyIdx bodies i (t.healer_range * (7/10)) with
  | none =>
    exact absurd helig ((hspecB hwa).2 i actor ha)
  | some k =>
    have hki : k = i := by
      by_contra hne
      obtain ⟨actor2, o, ha2, ho, helig2, _⟩ :=
        weakestAllyIdx_some_spec bodies i _ k hwa
      have hact : actor2 = actor := by
        rw [ha] at ha2
        injection ha2 with h9
        exact h9.symm
      subst hact
      exact hothers k hne o ho helig2
    subst hki
    obtain ⟨o, ho, _, _, hhp, hcd2⟩ := hspecA k hwa
    have hoa : o = actor := by
      rw [ha] at ho
      injection ho with h9
      exact h9.symm
    subst hoa
    exact ⟨rfl, hhp, hcd2⟩

/-! ## Power asymmetry of the Impact Effect Model -/

theorem incomingStrength_lt (rp : ℚ → ℚ → ℚ) (t : PhysicsTuning)
    (a b : PhysicsBody) (hmass : a.mass = b.mass) (hm : 0 < a.mass)
    (hpa : (1:ℚ)/1000000 ≤ a.power) (hpab : a.power < b.power)
    (hrpmono : ∀ x y, 0 < x → x < y →
      rp x t.power_ratio_exponent < rp y t.power_ratio_exponent)
    (hrp0 : ∀ x, 0 < x → 0 ≤ rp x t.power_ratio_exponent)
    (hmps : 0 < t.mass_power_impact_scale)
    (hcapa : incomingStrength rp t b a < t.impact_speed_cap) :
    incomingStrength rp t a b < incomingStrength rp t b a ∧
    0 ≤ incomingStrength rp t a b ∧
    incomingStrength rp t b a =
      t.mass_power_impact_scale * (a.mass / max (1/1000000) a.mass) *
        rp (b.power / a.power) t.power_ratio_exponent := by
  have hpa0 : 0 < a.power := lt_of_lt_of_le (by norm_num) hpa
  have hpb0 : 0 < b.power := lt_trans hpa0 hpab
  have hmaxa : max ((1:ℚ)/1000000) a.power = a.power := max_eq_right hpa
  have hmaxb : max ((1:ℚ)/1000000) b.power = b.power :=
    max_eq_right (le_trans hpa hpab.le)
  have hmu : 0 < a.mass / max ((1:ℚ)/1000000) a.mass :=
    div_pos hm (lt_max_of_lt_left (by norm_num))
  have hratio0 : 0 < a.power / b.power := div_pos hpa0 hpb0
  have hratio : a.power / b.power < b.power / a.power := by
    rw [div_lt_div_iff hpb0 hpa0]
    nlinarith
  have hrplt := hrpmono _ _ hratio0 hratio
  have hIab : incomingStrength rp t a b =
      min t.impact_speed_cap (t.mass_power_impact_scale *
        (a.mass / max (1/1000000) a.mass) *
        rp (a.power / b.power) t.power_ratio_exponent) := by
    unfold incomingStrength
    rw [hmaxa, hmaxb, ← hmass]
  have hIba : incomingStrength rp t b a =
      min t.impact_speed_cap (t.mass_power_impact_scale *
        (a.mass / max (1/1000000) a.mass) *
        rp (b.power / a.power) t.power_ratio_exponent) := by
    unfold incomingStrength
    rw [hmaxa, hmaxb, ← hmass]
  set sa := t.mass_power_impact_scale * (a.mass / max (1/1000000) a.mass) *
    rp (b.power / a.power) t.power_ratio_exponent with hsa
  set sb := t.mass_power_impact_scale * (a.mass / max (1/1000000) a.mass) *
    rp (a.power / b.power) t.power_ratio_exponent with hsb
  have hsb_lt_sa : sb < sa := by
    rw [hsa, hsb]
    exact mul_lt_mul_of_pos_left hrplt (mul_pos hmps hmu)
  have hsb0 : 0 ≤ sb := by
    rw [hsb]
    exact mul_nonneg (mul_pos hmps hmu).le (hrp0 _ hratio0)
  have hsa_lt_cap : sa < t.impact_speed_cap := by
    by_contra hcontra
    rw [hIba, min_eq_left (not_lt.mp hcontra)] at hcapa
    exact absurd hcapa (lt_irrefl _)
  have hIba_eq : incomingStrength rp t b a = sa := by
    rw [hIba]
    exact min_eq_right hsa_lt_cap.le
  refine ⟨?_, ?_, hIba_eq⟩
  · rw [hIba_eq, hIab]
    exact lt_of_le_of_lt (min_le_right _ _) hsb_lt_sa
  · rw [hIab]
    exact le_min (by linarith [le_trans hsb0 hsb_lt_sa.le]) hsb0


set_option maxHeartbeats 1000000 in
theorem impactEffects_asymmetry (rp : ℚ → ℚ → ℚ) (t : PhysicsTuning)
    (inv : List String) (a b : PhysicsBody) (nx : ℚ)
    (hmass : a.mass = b.mass) (hm : 0 < a.mass)
    (hpa : (1:ℚ)/1000000 ≤ a.power) (hpab : a.power < b.power)
    (hnx : nx = 1 ∨ nx = -1)
    (hrpmono : ∀ x y, 0 < x → x < y →
      rp x t.power_ratio_exponent < rp y t.power_ratio_exponent)
    (hrp0 : ∀ x, 0 < x → 0 ≤ rp x t.power_ratio_exponent)
    (hmps : 0 < t.mass_power_impact_scale)
    (hcapa : incomingStrength rp t b a < t.impact_speed_cap)
    (hmr : 0 ≤ t.min_recoil_speed) (hrs : 0 < t.recoil_scale)
    (hds : 0 < t.damage_scale)
    (hinva : isTeamInvincibleL inv a.team = false)
    (hinvb : isTeamInvincibleL inv b.team = false)
    (hhp : impactDamage rp t b a ≤ a.hp) :
    |(applyImpactEffects rp t inv a b nx).1.vx - a.vx| >
      |(applyImpactEffects rp t inv a b nx).2.vx - b.vx| ∧
    a.hp - (applyImpactEffects rp t inv a b nx).1.hp >
      b.hp - (applyImpactEffects rp t inv a b nx).2.hp := by
  obtain ⟨hlt, hnn, _⟩ := incomingStrength_lt rp t a b hmass hm hpa hpab
    hrpmono hrp0 hmps hcapa
  have hmb : 0 < b.mass := hmass ▸ hm
  have hIa0 : 0 ≤ incomingStrength rp t b a := le_trans hnn hlt.le
  have hreca0 : 0 ≤ t.min_recoil_speed + incomingStrength rp t b a * t.recoil_scale := by
    nlinarith
  have hrecb0 : 0 ≤ t.min_recoil_speed + incomingStrength rp t a b * t.recoil_scale := by
    nlinarith
  have hrec_lt : t.min_recoil_speed + incomingStrength rp t a b * t.recoil_scale <
      t.min_recoil_speed + incomingStrength rp t b a * t.recoil_scale := by
    nlinarith
  have hfst_vx : (applyImpactEffects rp t inv a b nx).1.vx =
      a.vx - nx * ((t.min_recoil_speed +
        incomingStrength rp t b a * t.recoil_scale) / a.mass) := by
    rw [applyImpactEffects_fst]
  have hsnd_vx : (applyImpactEffects rp t inv a b nx).2.vx =
      b.vx + nx * ((t.min_recoil_speed +
        incomingStrength rp t a b * t.recoil_scale) / b.mass) := by
    rw [applyImpactEffects_snd]
  have hfst_hp : (applyImpactEffects rp t inv a b nx).1.hp =
      max 0 (a.hp - impactDamage rp t b a) := by
    rw [applyImpactEffects_fst]
    simp [hinva]
  have hsnd_hp : (applyImpactEffects rp t inv a b nx).2.hp =
      max 0 (b.hp - impactDamage rp t a b) := by
    rw [applyImpactEffects_snd]
    simp [hinvb]
  constructor
  · rw [hfst_vx, hsnd_vx]
    have e1 : a.vx - nx * ((t.min_recoil_speed +
        incomingStrength rp t b a * t.recoil_scale) / a.mass) - a.vx =
        -(nx * ((t.min_recoil_speed +
          incomingStrength rp t b a * t.recoil_scale) / a.mass)) := by ring
    have e2 : b.vx + nx * ((t.min_recoil_speed +
        incomingStrength rp t a b * t.recoil_scale) / b.mass) - b.vx =
        nx * ((t.min_recoil_speed +
          incomingStrength rp t a b * t.recoil_scale) / b.mass) := by ring
    have hnx1 : |nx| = 1 := by
      rcases hnx with rfl | rfl <;> norm_num
    rw [e1, e2, abs_neg, abs_mul, abs_mul, hnx1, one_mul, one_mul,
      abs_of_nonneg (div_nonneg hreca0 hm.le),
      abs_of_nonneg (div_nonneg hrecb0 hmb.le), ← hmass]
    exact div_lt_div_of_pos_right hrec_lt hm
  · rw [hfst_hp, hsnd_hp]
    have hdmg : impactDamage rp t a b < impactDamage rp t b a := by
      unfold impactDamage
      nlinarith
    have h1 : b.hp - max 0 (b.hp - impactDamage rp t a b) ≤
        impactDamage rp t a b := by
      have := le_max_right (0:ℚ) (b.hp - impactDamage rp t a b)
      linarith
    have hmaxa' : max 0 (a.hp - impactDamage rp t b a) =
        a.hp - impactDamage rp t b a := max_eq_right (by linarith)
    rw [hmaxa']
    linarith

/-! ## Claim support lemmas on the public operations -/

theorem applyOp_step_pos (sq : ℚ → ℚ) (rp : ℚ → ℚ → ℚ) (w : PhysicsWorld)
    (dt : ℚ) (hdt : 0 < dt) :
    applyOp sq rp w (.step dt) = (stepGo sq rp w dt).world := by
  have he : stepE sq rp w dt = .ok (stepGo sq rp w dt).world := by
    unfold stepE
    rw [if_neg (not_le.mpr hdt)]
  unfold applyOp
  dsimp only
  rw [he]

theorem stepE_nonpos (sq : ℚ → ℚ) (rp : ℚ → ℚ → ℚ) (w : PhysicsWorld)
    (dt : ℚ) (hdt : dt ≤ 0) :
    stepE sq rp w dt = .error "dt must be > 0" := by
  unfold stepE
  rw [if_pos hdt]

theorem stepIter_dead_fixed (sq : ℚ → ℚ) (rp : ℚ → ℚ → ℚ) (dt : ℚ)
    (hdt : 0 < dt) (idx : ℕ) (c : PhysicsBody) (hdead : ¬ (0 < c.hp)) :
    ∀ (n : ℕ) (w : PhysicsWorld),
      w.bodies[idx]? = some (frozenBody c) →
      (stepIter sq rp dt n w).bodies[idx]? = some (frozenBody c) := by
  intro n
  induction n with
  | zero => intro w hw; exact hw
  | succ m ih =>
    intro w hw
    show (stepIter sq rp dt m (applyOp sq rp w (.step dt))).bodies[idx]? = _
    refine ih _ ?_
    rw [applyOp_step_pos sq rp w dt hdt]
    exact stepGo_dead_frozen sq rp w dt idx (frozenBody c) hw hdead


theorem exceptOk_of_toOption (e : Except String Unit)
    (h : e.toOption = some ()) : e = Except.ok () := by
  cases e with
  | ok u => cases u; rfl
  | error s => exact Option.noConfusion h

/-! ## The claim theorems -/

/-- C1: PhysicsBody construction rejects radius, mass, power or max_hp ≤ 0
and hp < 0, and otherwise yields a body satisfying the invariant
0 ≤ hp ≤ max_hp, radius > 0, mass > 0, power > 0, with an initial hp above
max_hp clamped down to max_hp; and on a validly constructed world every
sequence of public operations (step, add_random_impulse, set_tuning,
set_invincible_teams) keeps every body inside that invariant. -/
theorem claim_C1 :
    (∀ (body_id : ℕ) (team : String) (x y vx vy radius mass : ℚ)
       (color : String) (power : ℚ) (role : String)
       (forward_dir max_hp hp stagger_timer last_damage ability_cooldown : ℚ),
      (radius ≤ 0 ∨ mass ≤ 0 ∨ power ≤ 0 ∨ max_hp ≤ 0 ∨ hp < 0 →
        ∃ e, mkPhysicsBody body_id team x y vx vy radius mass color power
          role forward_dir max_hp hp stagger_timer last_damage
          ability_cooldown = .error e) ∧
      (∀ b, mkPhysicsBody body_id team x y vx vy radius mass color power
          role forward_dir max_hp hp stagger_timer last_damage
          ability_cooldown = .ok b →
        BodyInv b ∧ b.max_hp = max_hp ∧ b.hp = min hp max_hp)) ∧
    (∀ (sq : ℚ → ℚ) (rp : ℚ → ℚ → ℚ), RpNonneg rp →
      ∀ (width height : ℚ) (bodies : List PhysicsBody)
        (tuning : PhysicsTuning) (teams : List String) (w : PhysicsWorld)
        (ops : List WorldOp),
        mkPhysicsWorld width height bodies tuning teams = .ok w →
        AllInv bodies →
        ∀ b ∈ (runOps sq rp w ops).bodies, BodyInv b) := by
  constructor
  · intro bid team x y vx vy radius mass color power role fd mh hp st ld cd
    constructor
    · intro hbad
      unfold mkPhysicsBody
      by_cases h1 : radius ≤ 0
      · rw [if_pos h1]
        exact ⟨_, rfl⟩
      rw [if_neg h1]
      by_cases h2 : mass ≤ 0
      · rw [if_pos h2]
        exact ⟨_, rfl⟩
      rw [if_neg h2]
      by_cases h3 : power ≤ 0
      · rw [if_pos h3]
        exact ⟨_, rfl⟩
      rw [if_neg h3]
      by_cases h4 : mh ≤ 0
      · rw [if_pos h4]
        exact ⟨_, rfl⟩
      rw [if_neg h4]
      by_cases h5 : hp < 0
      · rw [if_pos h5]
        exact ⟨_, rfl⟩
      rcases hbad with hb | hb | hb | hb | hb
      exacts [absurd hb h1, absurd hb h2, absurd hb h3, absurd hb h4,
        absurd hb h5]
    · intro b hb
      refine ⟨mkPhysicsBody_ok_inv _ _ _ _ _ _ _ _ _ _ _ _ _ _ _ _ _ b hb, ?_⟩
      unfold mkPhysicsBody at hb
      split_ifs at hb with g1 g2 g3 g4 g5 g6 g7 gm <;>
        injection hb with hb <;> subst hb
      · exact ⟨rfl, (min_eq_right (le_of_lt gm)).symm⟩
      · exact ⟨rfl, (min_eq_left (not_lt.mp gm)).symm⟩
  · intro sq rp hrp width height bodies tuning teams w ops hmk hall b hb
    obtain ⟨hwb, hwt, hval⟩ := mkPhysicsWorld_ok width height bodies tuning
      teams w hmk
    have hwi : WorldInv w := ⟨by rw [hwb]; exact hall, by rw [hwt]; exact hval⟩
    exact (runOps_worldInv sq rp hrp ops w hwi).1 b hb

/-- C2: what the code actually does to a dead body above the floor (the
specification and the repository's own test expect it to fall): every
successful step leaves its position exactly where it was and forces its
velocity and timers to zero, for every positive number of ticks, so it
never converges to y = arena_height - radius. -/
theorem claim_C2 (sq : ℚ → ℚ) (rp : ℚ → ℚ → ℚ) (w : PhysicsWorld) (dt : ℚ)
    (idx : ℕ) (c : PhysicsBody) (hc : w.bodies[idx]? = some c)
    (hdead : ¬ (0 < c.hp)) (hdt : 0 < dt) :
    ∀ n : ℕ, 0 < n →
      (stepIter sq rp dt n w).bodies[idx]? = some (frozenBody c) := by
  intro n hn
  cases n with
  | zero => exact absurd hn (lt_irrefl 0)
  | succ m =>
    show (stepIter sq rp dt m (applyOp sq rp w (.step dt))).bodies[idx]? = _
    refine stepIter_dead_fixed sq rp dt hdt idx c hdead m _ ?_
    rw [applyOp_step_pos sq rp w dt hdt]
    exact stepGo_dead_frozen sq rp w dt idx c hc hdead

/-- Witness for C2: the concrete dead body at y = 70 in a 1000-high arena
(floor at 990) is still at y = 70 with zero velocity after three ticks. -/
theorem claim_C2_witness :
    (stepIter ratSqrt rpLin (1/100) 3 WD).bodies[0]? = some (frozenBody cD) :=
  claim_C2 ratSqrt rpLin WD (1/100) 0 cD rfl (by decide) (by norm_num) 3
    (by norm_num)

/-- C8: step called with dt ≤ 0 raises and leaves the world unchanged, and
set_tuning with a bundle violating any tuning bound raises and leaves the
world (hence the prior valid tuning) unchanged. -/
theorem claim_C8 :
    (∀ (sq : ℚ → ℚ) (rp : ℚ → ℚ → ℚ) (w : PhysicsWorld) (dt : ℚ), dt ≤ 0 →
      (∃ e, stepE sq rp w dt = .error e) ∧
        applyOp sq rp w (.step dt) = w) ∧
    (∀ (sq : ℚ → ℚ) (rp : ℚ → ℚ → ℚ) (w : PhysicsWorld) (t : PhysicsTuning),
      ¬ TuningBounds t →
      (∃ e, setTuningE w t = .error e) ∧
        applyOp sq rp w (.setTuning t) = w) := by
  constructor
  · intro sq rp w dt hdt
    refine ⟨⟨_, stepE_nonpos sq rp w dt hdt⟩, ?_⟩
    unfold applyOp
    dsimp only
    rw [stepE_nonpos sq rp w dt hdt]
  · intro sq rp w t hbad
    cases hv : t.validate with
    | ok u =>
      cases u
      exact absurd (validate_ok_bounds t hv) hbad
    | error e =>
      have he : setTuningE w t = .error e := by
        unfold setTuningE
        rw [hv]
      refine ⟨⟨e, he⟩, ?_⟩
      unfold applyOp
      dsimp only
      rw [he]

/-- Witness for C8: stepping the concrete world W3 with dt = 0 errors and
changes nothing. -/
theorem claim_C8_witness :
    (∃ e, stepE ratSqrt rpLin W3 0 = Except.error e) ∧
      applyOp ratSqrt rpLin W3 (.step 0) = W3 :=
  claim_C8.1 ratSqrt rpLin W3 0 le_rfl

/-- C10: a body dead at the start of a successful step keeps its exact
position through the whole step, and the step forces its vx, vy,
stagger_timer and ability_cooldown (and last_damage) to zero. -/
theorem claim_C10 (sq : ℚ → ℚ) (rp : ℚ → ℚ → ℚ) (w : PhysicsWorld) (dt : ℚ)
    (idx : ℕ) (c : PhysicsBody) (w2 : PhysicsWorld)
    (hc : w.bodies[idx]? = some c) (hdead : ¬ (0 < c.hp))
    (hstep : stepE sq rp w dt = .ok w2) :
    w2.bodies[idx]? = some (frozenBody c) := by
  unfold stepE at hstep
  by_cases hdt : dt ≤ 0
  · rw [if_pos hdt] at hstep
    exact Except.noConfusion hstep
  · rw [if_neg hdt] at hstep
    injection hstep with hstep
    subst hstep
    exact stepGo_dead_frozen sq rp w dt idx c hc hdead

/-- Witness for C10: one concrete successful step of the dead-body world
leaves the body at (200, 70) with motion zeroed. -/
theorem claim_C10_witness :
    (stepGo ratSqrt rpLin WD (1/100)).world.bodies[0]? =
      some (frozenBody cD) :=
  claim_C10 ratSqrt rpLin WD (1/100) 0 cD _ rfl (by decide)
    (by unfold stepE; rw [if_neg (by norm_num)])

/-- C3: the Impact Effect Model never fires twice for a pair within one
tick, never fires for a pair carried over in the previous tick's
active_contacts, records every firing pair in the new contact set, and
does fire for a fresh overlapping opposite-team pair with an approaching
relative normal velocity (the corrected first-contact condition). -/
theorem claim_C3 :
    (∀ (sq : ℚ → ℚ) (rp : ℚ → ℚ → ℚ) (w : PhysicsWorld) (dt : ℚ),
      (stepGo sq rp w dt).fires.Nodup ∧
      (∀ p ∈ (stepGo sq rp w dt).fires, p ∉ w.active_contacts) ∧
      (∀ p ∈ (stepGo sq rp w dt).fires,
        p ∈ (stepGo sq rp w dt).world.active_contacts)) ∧
    (∀ (sq : ℚ → ℚ) (rp : ℚ → ℚ → ℚ) (t : PhysicsTuning) (inv : List String)
       (prev : List (ℕ × ℕ)) (s : SolverState) (i j : ℕ) (a b : PhysicsBody),
      s.bodies[i]? = some a → s.bodies[j]? = some b → 0 < b.hp →
      a.team ≠ b.team → Overlap a b → FireCond sq prev s.impacts a b →
      (processPair sq rp t inv prev s i j).fireLog =
        pairKey a b :: s.fireLog) :=
  ⟨fun sq rp w dt => stepGo_fireInv sq rp w dt,
   fun sq rp t inv prev s i j a b hi hj hb ht ho hf =>
     processPair_fires_pos sq rp t inv prev s i j a b hi hj hb ht ho hf⟩

/-- Witness for C3: on the concrete three-body world the fired pairs are
distinct and all recorded in the new contact set. -/
theorem claim_C3_witness :
    (stepGo ratSqrt rpLin W6 (1/100)).fires.Nodup ∧
    ∀ p ∈ (stepGo ratSqrt rpLin W6 (1/100)).fires,
      p ∈ (stepGo ratSqrt rpLin W6 (1/100)).world.active_contacts :=
  ⟨(claim_C3.1 ratSqrt rpLin W6 (1/100)).1,
   (claim_C3.1 ratSqrt rpLin W6 (1/100)).2.2⟩

unseal Rat.add Rat.mul Rat.inv Rat.sub Rat.ofScientific in
/-- Counterexample to C3 as worded: in W3 the two opposite-team circles
overlap for the first time this tick (the previous contact set is empty,
the solver detects the contact and counts one collision) but they are
moving apart, so the Impact Effect Model does not fire and both bodies
keep full hp. -/
theorem claim_C3_cex :
    W3.active_contacts = [] ∧
    (stepGo ratSqrt rpLin W3 (1/100)).world.last_step_collisions = 1 ∧
    (stepGo ratSqrt rpLin W3 (1/100)).world.active_contacts = [(0, 1)] ∧
    ((stepGo ratSqrt rpLin W3 (1/100)).world.bodies.map PhysicsBody.hp) =
      [100, 100] ∧
    (stepGo ratSqrt rpLin W3 (1/100)).fires = [] := by
  decide

/-- C4: with equal masses, positive power gap, symmetric contact normal,
incoming strength below the cap, a strictly monotone nonnegative power
function, positive recoil and damage scaling, no invincibility and enough
hp to absorb the damage, the weaker body receives the strictly larger
horizontal velocity change and loses strictly more hp. -/
theorem claim_C4 (rp : ℚ → ℚ → ℚ) (t : PhysicsTuning) (inv : List String)
    (a b : PhysicsBody) (nx : ℚ) (hmass : a.mass = b.mass) (hm : 0 < a.mass)
    (hpa : (1:ℚ)/1000000 ≤ a.power) (hpab : a.power < b.power)
    (hnx : nx = 1 ∨ nx = -1)
    (hrpmono : ∀ x y : ℚ, 0 < x → x < y →
      rp x t.power_ratio_exponent < rp y t.power_ratio_exponent)
    (hrp0 : ∀ x : ℚ, 0 < x → 0 ≤ rp x t.power_ratio_exponent)
    (hmps : 0 < t.mass_power_impact_scale)
    (hcapa : incomingStrength rp t b a < t.impact_speed_cap)
    (hmr : 0 ≤ t.min_recoil_speed) (hrs : 0 < t.recoil_scale)
    (hds : 0 < t.damage_scale)
    (hinva : isTeamInvincibleL inv a.team = false)
    (hinvb : isTeamInvincibleL inv b.team = false)
    (hhp : impactDamage rp t b a ≤ a.hp) :
    |(applyImpactEffects rp t inv a b nx).1.vx - a.vx| >
      |(applyImpactEffects rp t inv a b nx).2.vx - b.vx| ∧
    a.hp - (applyImpactEffects rp t inv a b nx).1.hp >
      b.hp - (applyImpactEffects rp t inv a b nx).2.hp :=
  impactEffects_asymmetry rp t inv a b nx hmass hm hpa hpab hnx hrpmono hrp0
    hmps hcapa hmr hrs hds hinva hinvb hhp

unseal Rat.add Rat.mul Rat.inv Rat.sub Rat.ofScientific in
/-- Witness for C4: the concrete pair bA (power 1) against bB (power 2)
under tunW4 recoils and bleeds asymmetrically in bA's disfavour. -/
theorem claim_C4_witness :
    |(applyImpactEffects rpLin tunW4 [] bA bB 1).1.vx - bA.vx| >
      |(applyImpactEffects rpLin tunW4 [] bA bB 1).2.vx - bB.vx| ∧
    bA.hp - (applyImpactEffects rpLin tunW4 [] bA bB 1).1.hp >
      bB.hp - (applyImpactEffects rpLin tunW4 [] bA bB 1).2.hp :=
  claim_C4 rpLin tunW4 [] bA bB 1 rfl (by decide) (by decide) (by decide)
    (Or.inl rfl) (fun x y _ h => h) (fun x hx => le_of_lt hx) (by decide)
    (by decide) (by decide) (by decide) (by decide) (by decide) (by decide)
    (by decide)

unseal Rat.add Rat.mul Rat.inv Rat.sub Rat.ofScientific in
/-- Counterexample to C4 as worded: under the valid tuning tunX4
(recoil_scale = 0) the pair cA (power 1) against cB (power 2) satisfies
every premise the claim states - equal masses, 0 < p_a < p_b, symmetric
head-on approach, incoming strengths below the cap, positive exponent and
damage scale - yet neither claimed conclusion holds: the velocity changes
are equal (both recoils collapse to min_recoil_speed = 0) and the hp
clamp at zero makes both bodies lose exactly 100 hp. -/
theorem claim_C4_cex :
    (cA.mass = cB.mass ∧ 0 < cA.power ∧ cA.power < cB.power ∧
     cA.vx = 1 ∧ cB.vx = -1 ∧ cA.y = cB.y ∧ cA.x < cB.x ∧
     0 < tunX4.power_ratio_exponent ∧ 0 < tunX4.damage_scale ∧
     incomingStrength rpLin tunX4 cB cA < tunX4.impact_speed_cap ∧
     incomingStrength rpLin tunX4 cA cB < tunX4.impact_speed_cap ∧
     ¬ (|(applyImpactEffects rpLin tunX4 [] cA cB 1).1.vx - cA.vx| >
         |(applyImpactEffects rpLin tunX4 [] cA cB 1).2.vx - cB.vx|) ∧
     ¬ (cA.hp - (applyImpactEffects rpLin tunX4 [] cA cB 1).1.hp >
         cB.hp - (applyImpactEffects rpLin tunX4 [] cA cB 1).2.hp)) ∧
    tunX4.validate = Except.ok () :=
  ⟨by decide, exceptOk_of_toOption tunX4.validate (by decide)⟩

/-- C5: a defender on an invincible team keeps its hp and reads
last_damage 0 on a contact impact, a non-invincible defender loses
damage_base + incoming × damage_scale clamped at zero hp, a ranged hit on
an invincible target changes neither its hp nor its last_damage, and over
a whole step an invincible body's hp never decreases and its last_damage
ends at zero. -/
theorem claim_C5 :
    (∀ (rp : ℚ → ℚ → ℚ) (t : PhysicsTuning) (inv : List String)
       (a b : PhysicsBody) (nx : ℚ), isTeamInvincibleL inv a.team = true →
      (applyImpactEffects rp t inv a b nx).1.hp = a.hp ∧
      (applyImpactEffects rp t inv a b nx).1.last_damage = 0) ∧
    (∀ (rp : ℚ → ℚ → ℚ) (t : PhysicsTuning) (inv : List String)
       (a b : PhysicsBody) (nx : ℚ), isTeamInvincibleL inv a.team = false →
      (applyImpactEffects rp t inv a b nx).1.hp =
        max 0 (a.hp - (t.damage_base +
          incomingStrength rp t b a * t.damage_scale)) ∧
      (applyImpactEffects rp t inv a b nx).1.last_damage =
        t.damage_base + incomingStrength rp t b a * t.damage_scale) ∧
    (∀ (sq : ℚ → ℚ) (t : PhysicsTuning) (inv : List String)
       (bodies : List PhysicsBody) (ai ti : ℕ) (force damage : ℚ)
       (target : PhysicsBody), bodies[ti]? = some target →
      isTeamInvincibleL inv target.team = true →
      ((applyRangedKnockbackAt sq t inv bodies ai ti force damage)[ti]?).map
          PhysicsBody.hp = some target.hp ∧
      ((applyRangedKnockbackAt sq t inv bodies ai ti force damage)[ti]?).map
          PhysicsBody.last_damage = some target.last_damage) ∧
    (∀ (sq : ℚ → ℚ) (rp : ℚ → ℚ → ℚ) (w : PhysicsWorld) (dt : ℚ) (idx : ℕ)
       (c : PhysicsBody), w.bodies[idx]? = some c →
      isTeamInvincibleL w.invincible_teams c.team = true → RpNonneg rp →
      TuningBounds w.tuning → AllInv w.bodies →
      ∃ c2, (stepGo sq rp w dt).world.bodies[idx]? = some c2 ∧
        c.hp ≤ c2.hp ∧ c2.last_damage = 0) := by
  refine ⟨?_, ?_, ?_, ?_⟩
  · intro rp t inv a b nx h
    constructor <;> simp [applyImpactEffects_fst, h]
  · intro rp t inv a b nx h
    constructor <;> simp [applyImpactEffects_fst, impactDamage, h]
  · intro sq t inv bodies ai ti force damage target hto hinv
    rcases applyRangedKnockbackAt_cases sq t inv bodies ai ti force damage with
      heq | ⟨actor, tg, t2, _, hto2, _, heq, _, _, hhp2, hld2⟩
    · rw [heq, hto]
      exact ⟨rfl, rfl⟩
    · rw [hto] at hto2
      injection hto2 with h9
      subst h9
      rw [heq, List.getElem?_set_eq_of_lt _ (lt_length_of_getElem? hto)]
      constructor
      · rw [Option.map_some', hhp2, if_neg (fun hcon => hcon.2 hinv)]
      · rw [Option.map_some', hld2, if_neg (fun hcon => hcon.2 hinv)]
  · intro sq rp w dt idx c hc hteam hrp ht hall
    obtain ⟨c2, h1, h2, h3, _⟩ :=
      stepGo_invincible sq rp w dt idx c hc hteam hrp ht hall
    exact ⟨c2, h1, h2, h3⟩

/-- Witness for C5: with team l in the invincible set, the concrete body
cA keeps its 100 hp and reads last_damage 0 through a contact impact. -/
theorem claim_C5_witness :
    (applyImpactEffects rpLin tunX4 [normTeam "l"] cA cB 1).1.hp = cA.hp ∧
    (applyImpactEffects rpLin tunX4 [normTeam "l"] cA cB 1).1.last_damage =
      0 :=
  claim_C5.1 rpLin tunX4 [normTeam "l"] cA cB 1
    (decide_eq_true (List.mem_singleton.mpr rfl))

/-- C6: a same-team pair is never collided, a pair whose second body is
dead is never collided, and a row whose body is dead when the row starts
is skipped entirely: in each case the solver state - bodies, contacts,
impact set and collision counter - is exactly unchanged. -/
theorem claim_C6 :
    (∀ (sq : ℚ → ℚ) (rp : ℚ → ℚ → ℚ) (t : PhysicsTuning) (inv : List String)
       (prev : List (ℕ × ℕ)) (s : SolverState) (i j : ℕ) (a b : PhysicsBody),
      s.bodies[i]? = some a → s.bodies[j]? = some b → a.team = b.team →
      processPair sq rp t inv prev s i j = s) ∧
    (∀ (sq : ℚ → ℚ) (rp : ℚ → ℚ → ℚ) (t : PhysicsTuning) (inv : List String)
       (prev : List (ℕ × ℕ)) (s : SolverState) (i j : ℕ) (b : PhysicsBody),
      s.bodies[j]? = some b → ¬ (0 < b.hp) →
      processPair sq rp t inv prev s i j = s) ∧
    (∀ (sq : ℚ → ℚ) (rp : ℚ → ℚ → ℚ) (t : PhysicsTuning) (inv : List String)
       (prev : List (ℕ × ℕ)) (n : ℕ) (s : SolverState) (i : ℕ)
       (a : PhysicsBody), s.bodies[i]? = some a → ¬ (0 < a.hp) →
      processRow sq rp t inv prev n s i = s) :=
  ⟨fun sq rp t inv prev s i j a b hi hj ht =>
     processPair_same_team sq rp t inv prev s i j a b hi hj ht,
   fun sq rp t inv prev s i j b hj hd =>
     processPair_dead_j sq rp t inv prev s i j b hj hd,
   fun sq rp t inv prev n s i a hi hd =>
     processRow_dead sq rp t inv prev n s i a hi hd⟩

/-- Witness for C6: the overlapping same-team pair (1, 2) of the concrete
state s60 leaves the solver state untouched. -/
theorem claim_C6_witness :
    processPair ratSqrt rpLin tun0 [] [] s60 1 2 = s60 :=
  claim_C6.1 ratSqrt rpLin tun0 [] [] s60 1 2
    (mkB 1 "r" 56 50 (-2) 0 10 1 1 100) (mkB 2 "r" 40 50 0 0 10 1 1 100)
    rfl rfl rfl

unseal Rat.add Rat.mul Rat.inv Rat.sub Rat.ofScientific in
/-- Counterexample to C6 as worded: in the state s61 body 0 is already
dead (killed earlier in its own solver row), yet examining the pair (0, 2)
still counts a collision, still adds (0, 2) to the contact set, and still
damages and moves body 2. -/
theorem claim_C6_cex :
    ((s61.bodies[0]?).map PhysicsBody.hp) = some 0 ∧
    (processPair ratSqrt rpLin tun0 [] [] s61 0 2).collisions =
      s61.collisions + 1 ∧
    (0, 2) ∈ (processPair ratSqrt rpLin tun0 [] [] s61 0 2).contacts ∧
    ((processPair ratSqrt rpLin tun0 [] [] s61 0 2).bodies[2]?).map
      PhysicsBody.hp = some 50 ∧
    ((s61.bodies[2]?).map PhysicsBody.hp) = some 100 ∧
    ((processPair ratSqrt rpLin tun0 [] [] s61 0 2).bodies[2]?).map
      PhysicsBody.x = some (293/8) ∧
    ((s61.bodies[2]?).map PhysicsBody.x) = some 40 := by
  decide

/-- C7: a healer off cooldown either finds the in-range eligible ally with
the lowest hp ratio - whose hp is then raised by 0.8 × healer_amount
clamped to max_hp while the healer's cooldown resets to healer_cooldown -
or, when the scan returns nothing, no body in the list is an eligible ally
within 0.7 × healer_range and the body list is left unchanged. -/
theorem claim_C7 (sq : ℚ → ℚ) (t : PhysicsTuning) (inv : List String)
    (bodies : List PhysicsBody) (i : ℕ) (actor : PhysicsBody)
    (ha : bodies[i]? = some actor) (hrole : actor.role = "healer")
    (halive : 0 < actor.hp) (hcd : ¬ (0 < actor.ability_cooldown)) :
    (∀ k, weakestAllyIdx bodies i (t.healer_range * (7/10)) = some k →
      ∃ o, bodies[k]? = some o ∧
        EligAlly actor ((t.healer_range * (7/10)) * (t.healer_range * (7/10))) o ∧
        (∀ (m : ℕ) (o2 : PhysicsBody), bodies[m]? = some o2 →
          EligAlly actor ((t.healer_range * (7/10)) * (t.healer_range * (7/10))) o2 →
          o.hp / o.max_hp ≤ o2.hp / o2.max_hp) ∧
        ((roleActionAt sq t inv bodies i)[k]?).map PhysicsBody.hp =
          some (min o.max_hp (o.hp + t.healer_amount * (8/10))) ∧
        ((roleActionAt sq t inv bodies i)[i]?).map PhysicsBody.ability_cooldown =
          some t.healer_cooldown) ∧
    (weakestAllyIdx bodies i (t.healer_range * (7/10)) = none →
      roleActionAt sq t inv bodies i = bodies ∧
      ∀ (m : ℕ) (o : PhysicsBody), bodies[m]? = some o →
        ¬ EligAlly actor ((t.healer_range * (7/10)) * (t.healer_range * (7/10))) o) :=
  healer_action_spec sq t inv bodies i actor ha hrole halive hcd

unseal Rat.add Rat.mul Rat.inv Rat.sub Rat.ofScientific in
/-- Witness for C7: the concrete healer at full health heals its damaged
ally (40 hp → 48 hp against the default amount 10) and resets its own
cooldown. -/
theorem claim_C7_witness :
    ∃ o, [healerH, allyH][1]? = some o ∧
      EligAlly healerH ((tunDefault.healer_range * (7/10)) *
        (tunDefault.healer_range * (7/10))) o ∧
      (∀ (m : ℕ) (o2 : PhysicsBody), [healerH, allyH][m]? = some o2 →
        EligAlly healerH ((tunDefault.healer_range * (7/10)) *
          (tunDefault.healer_range * (7/10))) o2 →
        o.hp / o.max_hp ≤ o2.hp / o2.max_hp) ∧
      ((roleActionAt ratSqrt tunDefault [] [healerH, allyH] 0)[1]?).map
        PhysicsBody.hp =
        some (min o.max_hp (o.hp + tunDefault.healer_amount * (8/10))) ∧
      ((roleActionAt ratSqrt tunDefault [] [healerH, allyH] 0)[0]?).map
        PhysicsBody.ability_cooldown = some tunDefault.healer_cooldown :=
  (claim_C7 ratSqrt tunDefault [] [healerH, allyH] 0 healerH rfl rfl
    (by decide) (by decide)).1 1 (by decide)

/-- C9: the ally scan never excludes the acting body - a damaged living
body is an eligible target of its own scan at distance zero for any
nonnegative squared range - so a damaged healer off cooldown with no other
eligible ally in range selects itself, heals itself by 0.8 × healer_amount
clamped to max_hp, and resets its own cooldown. -/
theorem claim_C9 :
    (∀ (actor : PhysicsBody) (rngSq : ℚ), 0 < actor.hp → 0 < actor.max_hp →
      actor.hp < actor.max_hp → 0 ≤ rngSq → EligAlly actor rngSq actor) ∧
    (∀ (sq : ℚ → ℚ) (t : PhysicsTuning) (inv : List String)
       (bodies : List PhysicsBody) (i : ℕ) (actor : PhysicsBody),
      bodies[i]? = some actor → actor.role = "healer" → 0 < actor.hp →
      ¬ (0 < actor.ability_cooldown) → actor.hp < actor.max_hp →
      0 < actor.max_hp →
      (∀ j, j ≠ i → ∀ (o : PhysicsBody), bodies[j]? = some o →
        ¬ EligAlly actor ((t.healer_range * (7/10)) *
          (t.healer_range * (7/10))) o) →
      weakestAllyIdx bodies i (t.healer_range * (7/10)) = some i ∧
      ((roleActionAt sq t inv bodies i)[i]?).map PhysicsBody.hp =
        some (min actor.max_hp (actor.hp + t.healer_amount * (8/10))) ∧
      ((roleActionAt sq t inv bodies i)[i]?).map PhysicsBody.ability_cooldown =
        some t.healer_cooldown) := by
  constructor
  · intro actor rngSq h1 h2 h3 h4
    refine ⟨h1, rfl, ?_, h2, h3⟩
    have hx : actor.x - actor.x = 0 := by ring
    have hy : actor.y - actor.y = 0 := by ring
    rw [hx, hy]
    simpa using h4
  · intro sq t inv bodies i actor ha hrole halive hcd hdam hmax hothers
    exact healer_self_heal_spec sq t inv bodies i actor ha hrole halive hcd
      hdam hmax hothers

unseal Rat.add Rat.mul Rat.inv Rat.sub Rat.ofScientific in
/-- Witness for C9: the damaged healer alone in its list selects itself
and heals itself from 40 hp to 48 hp, resetting its cooldown. -/
theorem claim_C9_witness :
    weakestAllyIdx [soloH] 0 (tunDefault.healer_range * (7/10)) = some 0 ∧
    ((roleActionAt ratSqrt tunDefault [] [soloH] 0)[0]?).map PhysicsBody.hp =
      some (min soloH.max_hp (soloH.hp + tunDefault.healer_amount * (8/10))) ∧
    ((roleActionAt ratSqrt tunDefault [] [soloH] 0)[0]?).map
      PhysicsBody.ability_cooldown = some tunDefault.healer_cooldown :=
  claim_C9.2 ratSqrt tunDefault [] [soloH] 0 soloH rfl rfl (by decide)
    (by decide) (by decide) (by decide)
    (fun j hj o ho => by
      rw [List.getElem?_eq_none
        (by simpa using Nat.one_le_iff_ne_zero.mpr hj)] at ho
      exact Option.noConfusion ho)
